import Mathlib

/-!
Typesense Terraform provider: management client and cluster resource

A shallow embedding of `typesense/client.go` and `typesense/cluster_resource.go`.

* The five client operations (`GetCluster`, `CreateCluster`, `UpdateCluster`,
  `TerminateCluster`, `CreateClusterApiKeys`) are functions of the client, their
  argument and the outcome of the one HTTP exchange they perform (`Exchange`).
  Each returns an `Outcome`: a value, a returned error, or a run-time panic.
* The resource operations (`Create`, `Read`, `Update`, `Delete`, `ImportState`)
  take the request, the response as the framework hands it over, and the
  exchanges the remote side answers with; they return the response as they
  leave it, the HTTP requests they sent, and how they ended (`Run`).
* `net/http`, `io` and the syntax pass of `encoding/json` are outside the
  repository: an exchange carries what they produced. `time.Sleep` is not
  modelled; the polling loop is driven by the list of answers to its fetches.
-/

set_option autoImplicit false

namespace Typesense

/-! ## JSON values -/

/-- A JSON document as `encoding/json` sees it after its syntax pass. Numbers keep
their literal text; an object keeps its members in document order. -/
inductive JSON where
  | null
  | bool (b : Bool)
  | num (lit : String)
  | str (s : String)
  | arr (xs : List JSON)
  | obj (kvs : List (String × JSON))

/-! ## client.go: wire structs -/

/-- The URL constant `clusterEndpoint` (client.go, line 11). -/
def clusterEndpoint : String := "https://cloud.typesense.org/api/v1/clusters"

/-- The anonymous struct of the field `Hostnames` of `typesenseCluster`
(client.go, lines 26-29). -/
structure typesenseClusterHostnames where
  LoadBalanced : String
  Nodes : List String
deriving DecidableEq, Repr

/-- The struct `typesenseCluster` (client.go, lines 13-30). A nil slice and an
empty slice are both the empty list. -/
structure typesenseCluster where
  ID : String
  Name : String
  Memory : String
  VCPU : String
  HighPerformanceDisk : String
  TypesenseServerVersion : String
  HighAvailability : String
  SearchDeliveryNetwork : String
  LoadBalancing : String
  Regions : List String
  AutoUpgradeCapacity : Bool
  Status : String
  Hostnames : typesenseClusterHostnames
deriving DecidableEq, Repr

/-- The struct `typesenseClusterCreateResponse` (client.go, lines 32-35). -/
structure typesenseClusterCreateResponse where
  Success : Bool
  Cluster : typesenseCluster
deriving DecidableEq, Repr

/-- The struct `typesenseClusterApiKeys` (client.go, lines 161-166). -/
structure typesenseClusterApiKeys where
  Id : String
  ClusterId : String
  AdminKey : String
  SearchOnlyKey : String
deriving DecidableEq, Repr

/-- The struct `typesenseClusterApiKeysCreateResponse` (client.go, lines 168-171). -/
structure typesenseClusterApiKeysCreateResponse where
  Success : Bool
  ClusterApiKeys : typesenseClusterApiKeys
deriving DecidableEq, Repr

/-- The struct `typesenseClient` (client.go, lines 41-43). -/
structure typesenseClient where
  key : String
deriving DecidableEq, Repr

/-- Go zero value of the hostnames struct. -/
def typesenseClusterHostnames.zero : typesenseClusterHostnames :=
  { LoadBalanced := "", Nodes := [] }

/-- Go zero value of `typesenseCluster`, what `var cluster typesenseCluster` declares. -/
def typesenseCluster.zero : typesenseCluster :=
  { ID := "", Name := "", Memory := "", VCPU := "", HighPerformanceDisk := "",
    TypesenseServerVersion := "", HighAvailability := "", SearchDeliveryNetwork := "",
    LoadBalancing := "", Regions := [], AutoUpgradeCapacity := false, Status := "",
    Hostnames := typesenseClusterHostnames.zero }

/-- Go zero value of `typesenseClusterCreateResponse`. -/
def typesenseClusterCreateResponse.zero : typesenseClusterCreateResponse :=
  { Success := false, Cluster := typesenseCluster.zero }

/-- Go zero value of `typesenseClusterApiKeys`. -/
def typesenseClusterApiKeys.zero : typesenseClusterApiKeys :=
  { Id := "", ClusterId := "", AdminKey := "", SearchOnlyKey := "" }

/-- Go zero value of `typesenseClusterApiKeysCreateResponse`. -/
def typesenseClusterApiKeysCreateResponse.zero : typesenseClusterApiKeysCreateResponse :=
  { Success := false, ClusterApiKeys := typesenseClusterApiKeys.zero }

/-! ## `json.Unmarshal` into the declared structs

The decoding that `encoding/json` performs for the `json:"..."` tags above: an
object member is matched to the field whose tag equals its key under case folding,
unmatched members are skipped, members are applied in document order over the
value already there, `null` leaves a string, bool or struct as it is and empties a
slice, and a value of the wrong JSON kind is an error. The library keeps decoding
after a kind mismatch and returns the first such error at the end; every caller in
client.go discards the value when the error is non-nil, so the first error is all
that is kept here. (A slice member that occurs three or more times with `null`
elements can expose stale backing storage in Go; that is not modelled.) -/

/-- Case folding of one rune of a key: ASCII upper case to lower case, and the two
non-ASCII runes whose simple fold is an ASCII letter (U+017F to s, U+212A to k). -/
def foldRune (c : Char) : Char :=
  if 65 ≤ c.toNat ∧ c.toNat ≤ 90 then Char.ofNat (c.toNat + 32)
  else if c.toNat = 0x17F then Char.ofNat 115
  else if c.toNat = 0x212A then Char.ofNat 107
  else c

/-- Case folding of an object key, for comparison with the (lower-case ASCII) tags. -/
def foldName (s : String) : String := String.mk (s.data.map foldRune)

/-- Decode into a Go `string` holding `old`. -/
def unmarshalString (old : String) : JSON → Except String String
  | .str s => .ok s
  | .null => .ok old
  | _ => .error "json: cannot unmarshal into Go value of type string"

/-- Decode into a Go `bool` holding `old`. -/
def unmarshalBool (old : Bool) : JSON → Except String Bool
  | .bool b => .ok b
  | .null => .ok old
  | _ => .error "json: cannot unmarshal into Go value of type bool"

/-- Decode the elements of a JSON array into a `[]string` holding `old`: element
`i` is decoded over `old[i]` when there is one, over `""` otherwise. -/
def unmarshalStrings (old : List String) : List JSON → Except String (List String)
  | [] => .ok []
  | j :: js => do
    let s ← unmarshalString (old.headD "") j
    let ss ← unmarshalStrings old.tail js
    pure (s :: ss)

/-- Decode into a Go `[]string` holding `old`. -/
def unmarshalStringSlice (old : List String) : JSON → Except String (List String)
  | .arr xs => unmarshalStrings old xs
  | .null => .ok []
  | _ => .error "json: cannot unmarshal into Go value of type []string"

/-- Apply one object member to the hostnames struct (tags `load_balanced`, `nodes`). -/
def typesenseClusterHostnames.setField (h : typesenseClusterHostnames) (key : String)
    (v : JSON) : Except String typesenseClusterHostnames :=
  let k := foldName key
  if k = "load_balanced" then do
    let s ← unmarshalString h.LoadBalanced v
    pure { h with LoadBalanced := s }
  else if k = "nodes" then do
    let ns ← unmarshalStringSlice h.Nodes v
    pure { h with Nodes := ns }
  else pure h

/-- Decode into the hostnames struct holding `old`. -/
def unmarshalHostnames (old : typesenseClusterHostnames) :
    JSON → Except String typesenseClusterHostnames
  | .obj kvs => kvs.foldlM (fun h kv => h.setField kv.1 kv.2) old
  | .null => .ok old
  | _ => .error "json: cannot unmarshal into Go value of type struct"

/-- Apply one object member to a `typesenseCluster`, by the tags of lines 14-29. -/
def typesenseCluster.setField (c : typesenseCluster) (key : String) (v : JSON) :
    Except String typesenseCluster :=
  let k := foldName key
  if k = "id" then do
    let s ← unmarshalString c.ID v
    pure { c with ID := s }
  else if k = "name" then do
    let s ← unmarshalString c.Name v
    pure { c with Name := s }
  else if k = "memory" then do
    let s ← unmarshalString c.Memory v
    pure { c with Memory := s }
  else if k = "vcpu" then do
    let s ← unmarshalString c.VCPU v
    pure { c with VCPU := s }
  else if k = "high_performance_disk" then do
    let s ← unmarshalString c.HighPerformanceDisk v
    pure { c with HighPerformanceDisk := s }
  else if k = "typesense_server_version" then do
    let s ← unmarshalString c.TypesenseServerVersion v
    pure { c with TypesenseServerVersion := s }
  else if k = "high_availability" then do
    let s ← unmarshalString c.HighAvailability v
    pure { c with HighAvailability := s }
  else if k = "search_delivery_network" then do
    let s ← unmarshalString c.SearchDeliveryNetwork v
    pure { c with SearchDeliveryNetwork := s }
  else if k = "load_balancing" then do
    let s ← unmarshalString c.LoadBalancing v
    pure { c with LoadBalancing := s }
  else if k = "regions" then do
    let rs ← unmarshalStringSlice c.Regions v
    pure { c with Regions := rs }
  else if k = "auto_upgrade_capacity" then do
    let b ← unmarshalBool c.AutoUpgradeCapacity v
    pure { c with AutoUpgradeCapacity := b }
  else if k = "status" then do
    let s ← unmarshalString c.Status v
    pure { c with Status := s }
  else if k = "hostnames" then do
    let h ← unmarshalHostnames c.Hostnames v
    pure { c with Hostnames := h }
  else pure c

/-- Decode into a `typesenseCluster` holding `old`. -/
def unmarshalCluster (old : typesenseCluster) : JSON → Except String typesenseCluster
  | .obj kvs => kvs.foldlM (fun c kv => c.setField kv.1 kv.2) old
  | .null => .ok old
  | _ => .error "json: cannot unmarshal into Go value of type typesense.typesenseCluster"

/-- Apply one object member to a `typesenseClusterCreateResponse` (tags `success`,
`cluster`). -/
def typesenseClusterCreateResponse.setField (r : typesenseClusterCreateResponse)
    (key : String) (v : JSON) : Except String typesenseClusterCreateResponse :=
  let k := foldName key
  if k = "success" then do
    let b ← unmarshalBool r.Success v
    pure { r with Success := b }
  else if k = "cluster" then do
    let c ← unmarshalCluster r.Cluster v
    pure { r with Cluster := c }
  else pure r

/-- Decode into a `typesenseClusterCreateResponse` holding `old`. -/
def unmarshalCreateResponse (old : typesenseClusterCreateResponse) :
    JSON → Except String typesenseClusterCreateResponse
  | .obj kvs => kvs.foldlM (fun r kv => r.setField kv.1 kv.2) old
  | .null => .ok old
  | _ => .error
      "json: cannot unmarshal into Go value of type typesense.typesenseClusterCreateResponse"

/-- Apply one object member to a `typesenseClusterApiKeys` (tags `id`, `cluster_id`,
`admin_key`, `search_only_key`). -/
def typesenseClusterApiKeys.setField (a : typesenseClusterApiKeys) (key : String)
    (v : JSON) : Except String typesenseClusterApiKeys :=
  let k := foldName key
  if k = "id" then do
    let s ← unmarshalString a.Id v
    pure { a with Id := s }
  else if k = "cluster_id" then do
    let s ← unmarshalString a.ClusterId v
    pure { a with ClusterId := s }
  else if k = "admin_key" then do
    let s ← unmarshalString a.AdminKey v
    pure { a with AdminKey := s }
  else if k = "search_only_key" then do
    let s ← unmarshalString a.SearchOnlyKey v
    pure { a with SearchOnlyKey := s }
  else pure a

/-- Decode into a `typesenseClusterApiKeys` holding `old`. -/
def unmarshalApiKeys (old : typesenseClusterApiKeys) :
    JSON → Except String typesenseClusterApiKeys
  | .obj kvs => kvs.foldlM (fun a kv => a.setField kv.1 kv.2) old
  | .null => .ok old
  | _ => .error "json: cannot unmarshal into Go value of type typesense.typesenseClusterApiKeys"

/-- Apply one object member to a `typesenseClusterApiKeysCreateResponse` (tags
`success`, `api_keys`). -/
def typesenseClusterApiKeysCreateResponse.setField
    (r : typesenseClusterApiKeysCreateResponse) (key : String) (v : JSON) :
    Except String typesenseClusterApiKeysCreateResponse :=
  let k := foldName key
  if k = "success" then do
    let b ← unmarshalBool r.Success v
    pure { r with Success := b }
  else if k = "api_keys" then do
    let a ← unmarshalApiKeys r.ClusterApiKeys v
    pure { r with ClusterApiKeys := a }
  else pure r

/-- Decode into a `typesenseClusterApiKeysCreateResponse` holding `old`. -/
def unmarshalApiKeysCreateResponse (old : typesenseClusterApiKeysCreateResponse) :
    JSON → Except String typesenseClusterApiKeysCreateResponse
  | .obj kvs => kvs.foldlM (fun r kv => r.setField kv.1 kv.2) old
  | .null => .ok old
  | _ => .error
      "json: cannot unmarshal into Go value of type typesense.typesenseClusterApiKeysCreateResponse"

/-! ## The HTTP exchange

`net/http` and `io` are libraries outside the repository. One client operation
performs one exchange; an `Exchange` records what the libraries produced for it. -/

/-- What `io.ReadAll(resp.Body)` returned (`raw`) and what the syntax pass of
`json.Unmarshal` makes of those bytes (`json`): the document, or the library's
syntax error when the bytes are not JSON. The error of `io.ReadAll` itself is
overwritten by every caller, so `raw` is whatever was read. -/
structure HTTPBody where
  raw : String
  json : Except String JSON

/-- The part of `*http.Response` that exists for the code: a status code (which no
operation looks at) and the body. -/
structure HTTPResponse where
  StatusCode : Nat
  Body : HTTPBody

/-- Outcome of the library calls of one client operation: `http.NewRequest` returned
an error, or it succeeded and `hc.Do(req)` returned the pair `(resp, err)`, either
of which may be nil (`none`). -/
inductive Exchange where
  | newRequestFailed (err : String)
  | done (resp : Option HTTPResponse) (err : Option String)

/-- The request an operation builds: method, URL, headers added by `setHeaders`, and
the `params` map handed to `json.Marshal` (`none` for a nil body). The map is listed
in the order of the source's map literal. -/
structure HTTPRequest where
  Method : String
  URL : String
  Header : List (String × String)
  Body : Option (List (String × JSON))

/-- How a client operation ends: it returns a value with a nil error, it returns an
error, or it panics. -/
inductive Outcome (α : Type) where
  | ok (v : α)
  | err (e : String)
  | panic (msg : String)

/-- The run-time panic of selecting a field through a nil pointer. -/
def nilDereference : String :=
  "runtime error: invalid memory address or nil pointer dereference"

/-- The requests that reached the transport in an exchange: the built request when
`http.NewRequest` succeeded, nothing otherwise. -/
def Exchange.sent (x : Exchange) (req : HTTPRequest) : List HTTPRequest :=
  match x with
  | .newRequestFailed _ => []
  | .done _ _ => [req]

/-! ## client.go: operations -/

/-- The method `setHeaders` (client.go, lines 155-159). -/
def typesenseClient.setHeaders (c : typesenseClient) (req : HTTPRequest) : HTTPRequest :=
  { req with Header := req.Header ++
      [("Content-Type", "application/json"),
       ("Accept", "application/json"),
       ("X-TYPESENSE-CLOUD-MANAGEMENT-API-KEY", c.key)] }

/-- The request of `GetCluster` (client.go, lines 46-50). -/
def typesenseClient.GetClusterRequest (c : typesenseClient) (id : String) : HTTPRequest :=
  c.setHeaders
    { Method := "GET", URL := clusterEndpoint ++ "/" ++ id, Header := [], Body := none }

/-- The method `GetCluster` (client.go, lines 45-64). -/
def typesenseClient.GetCluster (_c : typesenseClient) (_id : String) (x : Exchange) :
    Outcome typesenseCluster :=
  match x with
  | .newRequestFailed e => .err e                      -- lines 46-49
  | .done none _ => .panic nilDereference              -- line 53: resp.Body of a nil resp
  | .done (some _) (some e) => .err e                  -- lines 54-56
  | .done (some resp) none =>
    match resp.Body.json with                          -- lines 57-61
    | .error e => .err e
    | .ok doc =>
      match unmarshalCluster typesenseCluster.zero doc with
      | .error e => .err e
      | .ok cluster => .ok cluster                     -- line 62

/-- The `params` map of `CreateCluster` (client.go, lines 67-76). -/
def CreateClusterParams (model : typesenseCluster) : List (String × JSON) :=
  [("memory", .str model.Memory),
   ("vcpu", .str model.VCPU),
   ("regions", .arr (model.Regions.map JSON.str)),
   ("high_availability", .str model.HighAvailability),
   ("search_delivery_network", .str "off"),
   ("high_performance_disk", .str model.HighPerformanceDisk),
   ("name", .str model.Name),
   ("auto_upgrade_capacity", .bool model.AutoUpgradeCapacity)]

/-- The request of `CreateCluster` (client.go, lines 67-82). -/
def typesenseClient.CreateClusterRequest (c : typesenseClient) (model : typesenseCluster) :
    HTTPRequest :=
  c.setHeaders
    { Method := "POST", URL := clusterEndpoint, Header := [],
      Body := some (CreateClusterParams model) }

/-- The method `CreateCluster` (client.go, lines 66-98). -/
def typesenseClient.CreateCluster (_c : typesenseClient) (_model : typesenseCluster)
    (x : Exchange) : Outcome typesenseCluster :=
  match x with
  | .newRequestFailed e => .err e                      -- lines 78-81
  | .done none _ => .panic nilDereference              -- line 85
  | .done (some _) (some e) => .err e                  -- lines 86-88
  | .done (some resp) none =>
    match resp.Body.json with                          -- lines 89-93
    | .error e => .err e
    | .ok doc =>
      match unmarshalCreateResponse typesenseClusterCreateResponse.zero doc with
      | .error e => .err e
      | .ok response =>
        if !response.Success then .err resp.Body.raw   -- lines 94-96
        else .ok response.Cluster                      -- line 97

/-- The `params` map of `UpdateCluster` (client.go, lines 101-104). -/
def UpdateClusterParams (model : typesenseCluster) : List (String × JSON) :=
  [("auto_upgrade_capacity", .bool model.AutoUpgradeCapacity),
   ("name", .str model.Name)]

/-- The request of `UpdateCluster` (client.go, lines 101-110). -/
def typesenseClient.UpdateClusterRequest (c : typesenseClient) (model : typesenseCluster) :
    HTTPRequest :=
  c.setHeaders
    { Method := "PATCH", URL := clusterEndpoint ++ "/" ++ model.ID, Header := [],
      Body := some (UpdateClusterParams model) }

/-- The method `UpdateCluster` (client.go, lines 100-126); `ok ()` is a nil error. -/
def typesenseClient.UpdateCluster (_c : typesenseClient) (_model : typesenseCluster)
    (x : Exchange) : Outcome Unit :=
  match x with
  | .newRequestFailed e => .err e                      -- lines 106-109
  | .done none _ => .panic nilDereference              -- line 113
  | .done (some _) (some e) => .err e                  -- lines 114-116
  | .done (some resp) none =>
    match resp.Body.json with                          -- lines 117-121
    | .error e => .err e
    | .ok doc =>
      match unmarshalCreateResponse typesenseClusterCreateResponse.zero doc with
      | .error e => .err e
      | .ok response =>
        if !response.Success then .err resp.Body.raw   -- lines 122-124
        else .ok ()                                    -- line 125

/-- The `params` map of `TerminateCluster` (client.go, lines 129-131). -/
def TerminateClusterParams : List (String × JSON) :=
  [("lifecycle_action", .str "terminate")]

/-- The request of `TerminateCluster` (client.go, lines 129-137). -/
def typesenseClient.TerminateClusterRequest (c : typesenseClient) (id : String) :
    HTTPRequest :=
  c.setHeaders
    { Method := "POST", URL := clusterEndpoint ++ "/" ++ id ++ "/lifecycle", Header := [],
      Body := some TerminateClusterParams }

/-- The method `TerminateCluster` (client.go, lines 128-153); `ok ()` is a nil error. -/
def typesenseClient.TerminateCluster (_c : typesenseClient) (_id : String) (x : Exchange) :
    Outcome Unit :=
  match x with
  | .newRequestFailed e => .err e                      -- lines 133-136
  | .done none _ => .panic nilDereference              -- line 140
  | .done (some _) (some e) => .err e                  -- lines 141-143
  | .done (some resp) none =>
    match resp.Body.json with                          -- lines 144-148
    | .error e => .err e
    | .ok doc =>
      match unmarshalCreateResponse typesenseClusterCreateResponse.zero doc with
      | .error e => .err e
      | .ok response =>
        if !response.Success then .err resp.Body.raw   -- lines 149-151
        else .ok ()                                    -- line 152

/-- The request of `CreateClusterApiKeys` (client.go, lines 174-179). -/
def typesenseClient.CreateClusterApiKeysRequest (c : typesenseClient)
    (model : typesenseClusterApiKeys) : HTTPRequest :=
  c.setHeaders
    { Method := "POST", URL := clusterEndpoint ++ "/" ++ model.ClusterId ++ "/api-keys",
      Header := [], Body := none }

/-- The method `CreateClusterApiKeys` (client.go, lines 173-197). -/
def typesenseClient.CreateClusterApiKeys (_c : typesenseClient)
    (model : typesenseClusterApiKeys) (x : Exchange) : Outcome typesenseClusterApiKeys :=
  match x with
  | .newRequestFailed e => .err e                      -- lines 175-178
  | .done none _ => .panic nilDereference              -- line 182
  | .done (some _) (some e) => .err e                  -- lines 183-185
  | .done (some resp) none =>
    match resp.Body.json with                          -- lines 186-190
    | .error e => .err e
    | .ok doc =>
      match unmarshalApiKeysCreateResponse typesenseClusterApiKeysCreateResponse.zero doc with
      | .error e => .err e
      | .ok response =>
        if !response.Success then .err resp.Body.raw   -- lines 191-193
        else .ok { response.ClusterApiKeys with        -- lines 194-196
                   ClusterId := model.ClusterId, Id := model.ClusterId }

/-! ## Terraform plugin framework values

The framework is outside the repository. A `types.String` or `types.Bool` is null,
unknown or known; `ValueString` and `ValueBool` give the zero value unless known. -/

/-- A framework `types.String`. -/
inductive TFString where
  | null
  | unknown
  | known (s : String)
deriving DecidableEq, Repr

/-- A framework `types.Bool`. -/
inductive TFBool where
  | null
  | unknown
  | known (b : Bool)
deriving DecidableEq, Repr

/-- The method `ValueString` of `types.String`. -/
def TFString.ValueString : TFString → String
  | .known s => s
  | _ => ""

/-- The method `ValueBool` of `types.Bool`. -/
def TFBool.ValueBool : TFBool → Bool
  | .known b => b
  | _ => false

/-- The constructor `types.StringValue`. -/
def types.StringValue (s : String) : TFString := .known s

/-- The constructor `types.BoolValue`. -/
def types.BoolValue (b : Bool) : TFBool := .known b

/-- The struct `typesenseHostnamesModel`. Its declaration is not among the source
files; the two fields are those of the composite literals in `Create` and `Update`
(cluster_resource.go, lines 231-234 and 333-336). -/
structure typesenseHostnamesModel where
  LoadBalanced : TFString
  Nodes : List TFString
deriving DecidableEq, Repr

/-- The value of the `hostnames` attribute: null, unknown, or the object assigned by
`Create` and `Update`. -/
inductive HostnamesValue where
  | null
  | unknown
  | object (m : typesenseHostnamesModel)
deriving DecidableEq, Repr

/-- The struct `typesenseClusterModel` (provider.go, lines 141-155). -/
structure typesenseClusterModel where
  ID : TFString
  Name : TFString
  Memory : TFString
  VCPU : TFString
  HighPerformanceDisk : TFString
  TypesenseServerVersion : TFString
  HighAvailability : TFString
  SearchDeliveryNetwork : TFString
  LoadBalancing : TFString
  Region : TFString
  AutoUpgradeCapacity : TFBool
  Status : TFString
  Hostnames : HostnamesValue
deriving DecidableEq, Repr

/-- The model of an empty state: every attribute null. -/
def typesenseClusterModel.null : typesenseClusterModel :=
  { ID := .null, Name := .null, Memory := .null, VCPU := .null,
    HighPerformanceDisk := .null, TypesenseServerVersion := .null,
    HighAvailability := .null, SearchDeliveryNetwork := .null, LoadBalancing := .null,
    Region := .null, AutoUpgradeCapacity := .null, Status := .null, Hostnames := .null }

/-- Severity of a diagnostic. -/
inductive Severity where
  | error
  | warning
deriving DecidableEq, Repr

/-- A framework diagnostic: severity, summary, detail. -/
structure Diagnostic where
  severity : Severity
  summary : String
  detail : String
deriving DecidableEq, Repr

/-- The method `Diagnostics.Append`: adds each diagnostic that is not already there. -/
def Diagnostics.Append (ds : List Diagnostic) (new : List Diagnostic) : List Diagnostic :=
  new.foldl (fun acc d => if d ∈ acc then acc else acc ++ [d]) ds

/-- The method `Diagnostics.AddError`. -/
def Diagnostics.AddError (ds : List Diagnostic) (summary detail : String) : List Diagnostic :=
  Diagnostics.Append ds [{ severity := .error, summary := summary, detail := detail }]

/-- The method `Diagnostics.HasError`. -/
def Diagnostics.HasError (ds : List Diagnostic) : Bool :=
  ds.any (fun d => d.severity == .error)

/-- A `tfsdk.Plan` or `tfsdk.State` as `Get(ctx, &model)` reads it: the model it fills
in and the diagnostics it returns. -/
structure TFData where
  model : typesenseClusterModel
  diags : List Diagnostic
deriving DecidableEq, Repr

/-- The part of `resource.CreateRequest` that `Create` reads. -/
structure CreateRequest where
  Plan : TFData

/-- The part of `resource.ReadRequest` that `Read` reads. -/
structure ReadRequest where
  State : TFData

/-- The part of `resource.UpdateRequest` that `Update` reads. -/
structure UpdateRequest where
  Plan : TFData

/-- The part of `resource.DeleteRequest` that `Delete` reads. -/
structure DeleteRequest where
  State : TFData

/-- The part of `resource.ImportStateRequest` that the passthrough reads. -/
structure ImportStateRequest where
  ID : String

/-- The two fields of the framework's response structs that the resource touches:
the diagnostics and the state (`none`: no record). `State.Set` with a fully known
model stores it and returns no diagnostics. -/
structure ResourceResponse where
  Diagnostics : List Diagnostic
  State : Option typesenseClusterModel
deriving DecidableEq, Repr

/-- How a resource operation ends: it returns, it panics, or (for `Create` only) it
is still in its polling loop when the given answers are used up. -/
inductive Ending where
  | returned
  | panicked (msg : String)
  | waiting
deriving DecidableEq, Repr

/-- One run of a resource operation: the response as it is left, the HTTP requests
sent in order, the number of `GetCluster` calls made, and the ending. -/
structure Run where
  resp : ResourceResponse
  sent : List HTTPRequest
  fetches : Nat
  ending : Ending

/-- The run-time panic of `cluster.Regions[0]` on an empty slice. -/
def indexOutOfRange : String := "runtime error: index out of range [0] with length 0"

/-! ## cluster_resource.go -/

/-- The struct `clusterResource` (cluster_resource.go, lines 144-146), configured. -/
structure clusterResource where
  client : typesenseClient

/-- Result of the polling loop of `Create`. -/
inductive Polled where
  | failed (err : String)
  | panicked (msg : String)
  | inService (cluster : typesenseCluster)
  | waiting

/-- The loop of `Create` with what it did: requests sent, `GetCluster` calls made. -/
structure Polling where
  sent : List HTTPRequest
  fetches : Nat
  result : Polled

/-- The polling loop of `Create` (cluster_resource.go, lines 197-211), one iteration
per answer: fetch; on an error leave; when the status is not `in_service` go round
again; otherwise break with the fetched cluster. -/
def clusterResource.poll (cr : clusterResource) (clusterId : String) :
    List Exchange → Polling
  | [] => { sent := [], fetches := 0, result := .waiting }
  | x :: rest =>
    let sent := x.sent (cr.client.GetClusterRequest clusterId)
    match cr.client.GetCluster clusterId x with            -- line 199
    | .err e => { sent := sent, fetches := 1, result := .failed e }       -- lines 200-206
    | .panic m => { sent := sent, fetches := 1, result := .panicked m }
    | .ok cluster =>
      if cluster.Status != "in_service" then                -- lines 207-209
        let r := clusterResource.poll cr clusterId rest
        { sent := sent ++ r.sent, fetches := 1 + r.fetches, result := r.result }
      else { sent := sent, fetches := 1, result := .inService cluster }   -- line 210

/-- The method `Create` (cluster_resource.go, lines 167-241). `create` answers the
call of `CreateCluster`, `fetches` the successive calls of `GetCluster`. -/
def clusterResource.Create (cr : clusterResource) (req : CreateRequest)
    (resp : ResourceResponse) (create : Exchange) (fetches : List Exchange) : Run :=
  let plan := req.Plan.model                                              -- lines 169-170
  let resp := { resp with Diagnostics := Diagnostics.Append resp.Diagnostics req.Plan.diags }
  if Diagnostics.HasError resp.Diagnostics then                           -- lines 172-174
    { resp := resp, sent := [], fetches := 0, ending := .returned }
  else
    let model : typesenseCluster :=                                       -- lines 177-186
      { typesenseCluster.zero with
        Memory := plan.Memory.ValueString,
        VCPU := plan.VCPU.ValueString,
        Regions := [plan.Region.ValueString],
        HighAvailability := plan.HighAvailability.ValueString,
        SearchDeliveryNetwork := plan.SearchDeliveryNetwork.ValueString,
        HighPerformanceDisk := plan.HighPerformanceDisk.ValueString,
        Name := plan.Name.ValueString,
        AutoUpgradeCapacity := plan.AutoUpgradeCapacity.ValueBool }
    let sent := create.sent (cr.client.CreateClusterRequest model)
    match cr.client.CreateCluster model create with
    | .panic m => { resp := resp, sent := sent, fetches := 0, ending := .panicked m }
    | .err e =>                                                           -- lines 187-193
      let diags := Diagnostics.AddError resp.Diagnostics "Error creating cluster"
        ("Could not create cluster, unexpected error: " ++ e)
      { resp := { resp with Diagnostics := diags },
        sent := sent, fetches := 0, ending := .returned }
    | .ok cluster =>
      let clusterId := cluster.ID                                         -- line 196
      let p := cr.poll clusterId fetches                                  -- lines 197-211
      match p.result with
      | .waiting =>
        { resp := resp, sent := sent ++ p.sent, fetches := p.fetches, ending := .waiting }
      | .panicked m =>
        { resp := resp, sent := sent ++ p.sent, fetches := p.fetches, ending := .panicked m }
      | .failed e =>                                                      -- lines 200-206
        let diags := Diagnostics.AddError resp.Diagnostics "Error waiting for cluster state"
          ("Cluster created, but could not reach expected state: " ++ e)
        { resp := { resp with Diagnostics := diags },
          sent := sent ++ p.sent, fetches := p.fetches, ending := .returned }
      | .inService cluster =>
        match cluster.Regions with                                        -- line 222
        | [] =>
          { resp := resp, sent := sent ++ p.sent, fetches := p.fetches,
            ending := .panicked indexOutOfRange }
        | region :: _ =>
          let plan : typesenseClusterModel :=                             -- lines 213-234
            { plan with
              ID := types.StringValue cluster.ID,
              Name := types.StringValue cluster.Name,
              Memory := types.StringValue cluster.Memory,
              VCPU := types.StringValue cluster.VCPU,
              HighPerformanceDisk := types.StringValue cluster.HighPerformanceDisk,
              TypesenseServerVersion := types.StringValue cluster.TypesenseServerVersion,
              HighAvailability := types.StringValue cluster.HighAvailability,
              SearchDeliveryNetwork := types.StringValue cluster.SearchDeliveryNetwork,
              LoadBalancing := types.StringValue cluster.LoadBalancing,
              Region := types.StringValue region,
              AutoUpgradeCapacity := types.BoolValue cluster.AutoUpgradeCapacity,
              Status := types.StringValue cluster.Status,
              Hostnames := .object
                { LoadBalanced := types.StringValue cluster.Hostnames.LoadBalanced,
                  Nodes := cluster.Hostnames.Nodes.map types.StringValue } }
          { resp := { resp with State := some plan },                     -- lines 236-240
            sent := sent ++ p.sent, fetches := p.fetches, ending := .returned }

/-- The method `Read` (cluster_resource.go, lines 244-281). `fetch` answers the call
of `GetCluster`. -/
def clusterResource.Read (cr : clusterResource) (req : ReadRequest)
    (resp : ResourceResponse) (fetch : Exchange) : Run :=
  let state := req.State.model                                            -- lines 246-247
  let resp := { resp with Diagnostics := Diagnostics.Append resp.Diagnostics req.State.diags }
  if Diagnostics.HasError resp.Diagnostics then                           -- lines 249-251
    { resp := resp, sent := [], fetches := 0, ending := .returned }
  else
    let sent := fetch.sent (cr.client.GetClusterRequest state.ID.ValueString)
    match cr.client.GetCluster state.ID.ValueString fetch with             -- line 254
    | .panic m => { resp := resp, sent := sent, fetches := 1, ending := .panicked m }
    | .err e =>                                                           -- lines 255-261
      let diags := Diagnostics.AddError resp.Diagnostics "Error Reading Typesense Cluster"
        ("Could not read Typesense Cluster ID " ++ state.ID.ValueString ++ ": " ++ e)
      { resp := { resp with Diagnostics := diags },
        sent := sent, fetches := 1, ending := .returned }
    | .ok cluster =>
      match cluster.Regions with                                          -- line 271
      | [] => { resp := resp, sent := sent, fetches := 1, ending := .panicked indexOutOfRange }
      | region :: _ =>
        let state : typesenseClusterModel :=                              -- lines 262-273
          { state with
            ID := types.StringValue cluster.ID,
            Name := types.StringValue cluster.Name,
            Memory := types.StringValue cluster.Memory,
            VCPU := types.StringValue cluster.VCPU,
            HighPerformanceDisk := types.StringValue cluster.HighPerformanceDisk,
            TypesenseServerVersion := types.StringValue cluster.TypesenseServerVersion,
            HighAvailability := types.StringValue cluster.HighAvailability,
            SearchDeliveryNetwork := types.StringValue cluster.SearchDeliveryNetwork,
            LoadBalancing := types.StringValue cluster.LoadBalancing,
            Region := types.StringValue region,
            AutoUpgradeCapacity := types.BoolValue cluster.AutoUpgradeCapacity,
            Status := types.StringValue cluster.Status }
        { resp := { resp with State := some state },                      -- lines 276-280
          sent := sent, fetches := 1, ending := .returned }

/-- The method `Update` (cluster_resource.go, lines 284-343). `patch` answers the call
of `UpdateCluster`, `fetch` the call of `GetCluster` that follows it. -/
def clusterResource.Update (cr : clusterResource) (req : UpdateRequest)
    (resp : ResourceResponse) (patch fetch : Exchange) : Run :=
  let plan := req.Plan.model                                              -- lines 286-287
  let resp := { resp with Diagnostics := Diagnostics.Append resp.Diagnostics req.Plan.diags }
  if Diagnostics.HasError resp.Diagnostics then                           -- lines 289-291
    { resp := resp, sent := [], fetches := 0, ending := .returned }
  else
    let model : typesenseCluster :=                                       -- lines 294-298
      { typesenseCluster.zero with
        ID := plan.ID.ValueString,
        Name := plan.Name.ValueString,
        AutoUpgradeCapacity := plan.AutoUpgradeCapacity.ValueBool }
    let sent := patch.sent (cr.client.UpdateClusterRequest model)
    match cr.client.UpdateCluster model patch with
    | .panic m => { resp := resp, sent := sent, fetches := 0, ending := .panicked m }
    | .err e =>                                                           -- lines 299-305
      let diags := Diagnostics.AddError resp.Diagnostics "Error Updating Typesense Cluster"
        ("Could not update cluster, unexpected error: " ++ e)
      { resp := { resp with Diagnostics := diags },
        sent := sent, fetches := 0, ending := .returned }
    | .ok _ =>
      let sent := sent ++ fetch.sent (cr.client.GetClusterRequest plan.ID.ValueString)
      match cr.client.GetCluster plan.ID.ValueString fetch with            -- line 307
      | .panic m => { resp := resp, sent := sent, fetches := 1, ending := .panicked m }
      | .err e =>                                                         -- lines 308-314
        let diags := Diagnostics.AddError resp.Diagnostics "Error Reading Typesense Cluster"
          ("Could not read Typesense Cluster ID " ++ plan.ID.ValueString ++ ": " ++ e)
        { resp := { resp with Diagnostics := diags },
          sent := sent, fetches := 1, ending := .returned }
      | .ok cluster =>
        match cluster.Regions with                                        -- line 324
        | [] =>
          { resp := resp, sent := sent, fetches := 1, ending := .panicked indexOutOfRange }
        | region :: _ =>
          let plan : typesenseClusterModel :=                             -- lines 315-336
            { plan with
              ID := types.StringValue cluster.ID,
              Name := types.StringValue cluster.Name,
              Memory := types.StringValue cluster.Memory,
              VCPU := types.StringValue cluster.VCPU,
              HighPerformanceDisk := types.StringValue cluster.HighPerformanceDisk,
              TypesenseServerVersion := types.StringValue cluster.TypesenseServerVersion,
              HighAvailability := types.StringValue cluster.HighAvailability,
              SearchDeliveryNetwork := types.StringValue cluster.SearchDeliveryNetwork,
              LoadBalancing := types.StringValue cluster.LoadBalancing,
              Region := types.StringValue region,
              AutoUpgradeCapacity := types.BoolValue cluster.AutoUpgradeCapacity,
              Status := types.StringValue cluster.Status,
              Hostnames := .object
                { LoadBalanced := types.StringValue cluster.Hostnames.LoadBalanced,
                  Nodes := cluster.Hostnames.Nodes.map types.StringValue } }
          { resp := { resp with State := some plan },                     -- lines 338-342
            sent := sent, fetches := 1, ending := .returned }

/-- The method `Delete` (cluster_resource.go, lines 346-364). `terminate` answers the
call of `TerminateCluster`. The method itself never touches `resp.State`. -/
def clusterResource.Delete (cr : clusterResource) (req : DeleteRequest)
    (resp : ResourceResponse) (terminate : Exchange) : Run :=
  let state := req.State.model                                            -- lines 348-349
  let resp := { resp with Diagnostics := Diagnostics.Append resp.Diagnostics req.State.diags }
  if Diagnostics.HasError resp.Diagnostics then                           -- lines 351-353
    { resp := resp, sent := [], fetches := 0, ending := .returned }
  else
    let sent := terminate.sent (cr.client.TerminateClusterRequest state.ID.ValueString)
    match cr.client.TerminateCluster state.ID.ValueString terminate with   -- line 356
    | .panic m => { resp := resp, sent := sent, fetches := 0, ending := .panicked m }
    | .err e =>                                                           -- lines 357-363
      let diags := Diagnostics.AddError resp.Diagnostics "Error Deleting Typesense Cluster"
        ("Could not delete cluster, unexpected error: " ++ e)
      { resp := { resp with Diagnostics := diags },
        sent := sent, fetches := 0, ending := .returned }
    | .ok _ => { resp := resp, sent := sent, fetches := 0, ending := .returned }

/-- The method `ImportState` (cluster_resource.go, lines 366-369): the framework's
`ImportStatePassthroughID` writes the import identifier to the attribute `id` of
the response state and nothing else. -/
def clusterResource.ImportState (_cr : clusterResource) (req : ImportStateRequest)
    (resp : ResourceResponse) : ResourceResponse :=
  let state := resp.State.getD typesenseClusterModel.null
  { resp with State := some { state with ID := types.StringValue req.ID } }

/-! ## Sample inputs -/

/-- A configured resource. -/
def sampleResource : clusterResource := { client := { key := "management-key" } }

/-- A plan for a new cluster: the configured attributes known, the computed ones unknown. -/
def samplePlan : typesenseClusterModel :=
  { ID := .unknown, Name := .known "search", Memory := .known "0.5_gb",
    VCPU := .known "2_vcpus_1_hr_burst_per_day", HighPerformanceDisk := .known "no",
    TypesenseServerVersion := .unknown, HighAvailability := .known "no",
    SearchDeliveryNetwork := .unknown, LoadBalancing := .unknown,
    Region := .known "us-east-1", AutoUpgradeCapacity := .known false,
    Status := .unknown, Hostnames := .unknown }

/-- A create request carrying `samplePlan`. -/
def sampleCreateRequest : CreateRequest := { Plan := { model := samplePlan, diags := [] } }

/-- A response with no diagnostics and no state. -/
def emptyResponse : ResourceResponse := { Diagnostics := [], State := none }

/-- An exchange in which the transport delivered a response with the given status
code and a body that is the JSON document `doc`, written `raw`. -/
def answer (status : Nat) (raw : String) (doc : JSON) : Exchange :=
  .done (some { StatusCode := status, Body := { raw := raw, json := .ok doc } }) none

/-- The answer to the create call: success, the new cluster `abc123` provisioning. -/
def createdAnswer : Exchange :=
  answer 200
    "\x7b\"success\":true,\"cluster\":\x7b\"id\":\"abc123\",\"status\":\"provisioning\"\x7d\x7d"
    (.obj [("success", .bool true),
           ("cluster", .obj [("id", .str "abc123"), ("status", .str "provisioning")])])

/-- A fetch answer while the cluster is being provisioned. -/
def provisioningAnswer : Exchange :=
  answer 200
    "\x7b\"id\":\"abc123\",\"status\":\"provisioning\",\"regions\":[\"us-east-1\"]\x7d"
    (.obj [("id", .str "abc123"), ("status", .str "provisioning"),
           ("regions", .arr [.str "us-east-1"])])

/-- A fetch answer for the cluster in service, with the given region list. -/
def inServiceAnswer (regions : List String) : Exchange :=
  answer 200
    ("\x7b\"id\":\"abc123\",\"name\":\"search\",\"memory\":\"0.5_gb\","
      ++ "\"vcpu\":\"2_vcpus_1_hr_burst_per_day\",\"high_performance_disk\":\"no\","
      ++ "\"typesense_server_version\":\"27.1\",\"high_availability\":\"no\","
      ++ "\"search_delivery_network\":\"off\",\"load_balancing\":\"round_robin\","
      ++ "\"regions\":[" ++ ",".intercalate (regions.map (fun r => "\"" ++ r ++ "\"")) ++ "],"
      ++ "\"auto_upgrade_capacity\":false,\"status\":\"in_service\","
      ++ "\"hostnames\":\x7b\"load_balanced\":\"abc123.a1.typesense.net\","
      ++ "\"nodes\":[\"abc123-1.a1.typesense.net\"]\x7d\x7d")
    (.obj [("id", .str "abc123"), ("name", .str "search"), ("memory", .str "0.5_gb"),
           ("vcpu", .str "2_vcpus_1_hr_burst_per_day"), ("high_performance_disk", .str "no"),
           ("typesense_server_version", .str "27.1"), ("high_availability", .str "no"),
           ("search_delivery_network", .str "off"), ("load_balancing", .str "round_robin"),
           ("regions", .arr (regions.map JSON.str)), ("auto_upgrade_capacity", .bool false),
           ("status", .str "in_service"),
           ("hostnames", .obj [("load_balanced", .str "abc123.a1.typesense.net"),
                               ("nodes", .arr [.str "abc123-1.a1.typesense.net"])])])

/-- A fetch answer that says `in_service` and carries no region list. -/
def inServiceNoRegionsAnswer : Exchange :=
  answer 200 "\x7b\"id\":\"abc123\",\"status\":\"in_service\"\x7d"
    (.obj [("id", .str "abc123"), ("status", .str "in_service")])

/-- The cluster that `inServiceAnswer regions` decodes to. -/
def inServiceCluster (regions : List String) : typesenseCluster :=
  { ID := "abc123", Name := "search", Memory := "0.5_gb",
    VCPU := "2_vcpus_1_hr_burst_per_day", HighPerformanceDisk := "no",
    TypesenseServerVersion := "27.1", HighAvailability := "no",
    SearchDeliveryNetwork := "off", LoadBalancing := "round_robin", Regions := regions,
    AutoUpgradeCapacity := false, Status := "in_service",
    Hostnames := { LoadBalanced := "abc123.a1.typesense.net",
                   Nodes := ["abc123-1.a1.typesense.net"] } }

/-- The record stored from `inServiceCluster` when its first region is `region`. -/
def inServiceRecord (region : String) : typesenseClusterModel :=
  { ID := .known "abc123", Name := .known "search", Memory := .known "0.5_gb",
    VCPU := .known "2_vcpus_1_hr_burst_per_day", HighPerformanceDisk := .known "no",
    TypesenseServerVersion := .known "27.1", HighAvailability := .known "no",
    SearchDeliveryNetwork := .known "off", LoadBalancing := .known "round_robin",
    Region := .known region, AutoUpgradeCapacity := .known false,
    Status := .known "in_service",
    Hostnames := .object { LoadBalanced := .known "abc123.a1.typesense.net",
                           Nodes := [.known "abc123-1.a1.typesense.net"] } }

/-- The answer to a create call that succeeds with the new identifier `id`. -/
def createdWith (id : String) : Exchange :=
  answer 200
    ("\x7b\"success\":true,\"cluster\":\x7b\"id\":\"" ++ id
      ++ "\",\"status\":\"provisioning\"\x7d\x7d")
    (.obj [("success", .bool true),
           ("cluster", .obj [("id", .str id), ("status", .str "provisioning")])])

/-- A response with an empty body, which is not a JSON document. -/
def emptyBodyAnswer : Exchange :=
  .done (some { StatusCode := 502,
                Body := { raw := "", json := .error "unexpected end of JSON input" } }) none

/-- A transport failure: `hc.Do` returned no response and an error. -/
def transportFailure : Exchange :=
  .done none (some "dial tcp: lookup cloud.typesense.org: no such host")

/-- The answer of the remote side for a cluster that does not exist: status 404 and
an error report with `success` false. -/
def notFoundAnswer : Exchange :=
  answer 404 "\x7b\"success\":false,\"message\":\"Cluster not found\"\x7d"
    (.obj [("success", .bool false), ("message", .str "Cluster not found")])

/-- The answer of the remote side accepting a request: `success` true. -/
def acceptedAnswer : Exchange :=
  answer 200 "\x7b\"success\":true\x7d" (.obj [("success", .bool true)])

/-- A response holding the tracked record of cluster `abc123` and no diagnostics. -/
def trackedResponse : ResourceResponse :=
  { Diagnostics := [], State := some (inServiceRecord "us-east-1") }

/-- A delete request for the tracked cluster `abc123`. -/
def sampleDeleteRequest : DeleteRequest :=
  { State := { model := inServiceRecord "us-east-1", diags := [] } }

/-- A response whose document has no `success` member at all. -/
def flaglessResponse : HTTPResponse :=
  { StatusCode := 200,
    Body := { raw := "\x7b\"message\":\"queued\"\x7d",
              json := .ok (.obj [("message", .str "queued")]) } }

/-- The JSON tags of the fields of `typesenseCluster` (client.go, lines 14-29). -/
def clusterTags : List String :=
  ["id", "name", "memory", "vcpu", "high_performance_disk", "typesense_server_version",
   "high_availability", "search_delivery_network", "load_balancing", "regions",
   "auto_upgrade_capacity", "status", "hostnames"]

/-- A read request for the tracked cluster `abc123`. -/
def sampleReadRequest : ReadRequest :=
  { State := { model := inServiceRecord "us-east-1", diags := [] } }

/-- A tracked record of cluster `abc123` from before an upgrade and a change of
hostnames on the remote side. -/
def staleRecord : typesenseClusterModel :=
  { inServiceRecord "us-east-1" with
    TypesenseServerVersion := .known "26.0",
    Status := .known "upgrading",
    Hostnames := .object { LoadBalanced := .known "old.a1.typesense.net",
                           Nodes := [.known "old-1.a1.typesense.net"] } }

/-- An update request renaming the tracked cluster `abc123`. -/
def sampleUpdateRequest : UpdateRequest :=
  { Plan := { model := { inServiceRecord "us-east-1" with Name := .known "search-2" },
              diags := [] } }

/-- The document of a successful key issuance: the success flag and the `api_keys`
object with the given identifiers and the two keys. -/
def apiKeysDoc (id clusterId adminKey searchOnlyKey : String) : JSON :=
  .obj [("success", .bool true),
        ("api_keys", .obj [("id", .str id), ("cluster_id", .str clusterId),
                           ("admin_key", .str adminKey),
                           ("search_only_key", .str searchOnlyKey)])]

/-- A response carrying `apiKeysDoc` for two sample keys; the identifiers in the
document differ from the cluster the keys are requested for. -/
def apiKeysResponse : HTTPResponse :=
  { StatusCode := 200,
    Body := { raw := "\x7b\"success\":true,\"api_keys\":\x7b\"id\":\"k1\","
                ++ "\"cluster_id\":\"other\",\"admin_key\":\"adm-secret\","
                ++ "\"search_only_key\":\"srch-secret\"\x7d\x7d",
              json := .ok (apiKeysDoc "k1" "other" "adm-secret" "srch-secret") } }

/-- The answer of the remote side rejecting a request: status 422, `success` false. -/
def rejectedAnswer : Exchange :=
  answer 422 "\x7b\"success\":false,\"message\":\"Validation failed\"\x7d"
    (.obj [("success", .bool false), ("message", .str "Validation failed")])

/-- A fetch answer whose body is the empty JSON object. -/
def emptyObjectAnswer : Exchange := answer 200 "\x7b\x7d" (.obj [])

/-! ## Theorems -/

/-- Claim C1 (update field isolation): whatever the plan holds, the requests that
`Update` sends are an initial part of: the PATCH to the cluster's URL whose body has
exactly the two members `auto_upgrade_capacity` and `name`, with the plan's values,
followed by the body-less GET of the same cluster. The body that `UpdateCluster`
builds has exactly these two keys for every model, so memory, vCPU, regions, high
availability and high-performance disk are never transmitted. -/
theorem C1_update_field_isolation (cr : clusterResource) (req : UpdateRequest)
    (resp : ResourceResponse) (patch fetch : Exchange) :
    (cr.Update req resp patch fetch).sent <+:
        [ { Method := "PATCH",
            URL := clusterEndpoint ++ "/" ++ req.Plan.model.ID.ValueString,
            Header := [("Content-Type", "application/json"), ("Accept", "application/json"),
                       ("X-TYPESENSE-CLOUD-MANAGEMENT-API-KEY", cr.client.key)],
            Body := some
              [("auto_upgrade_capacity", JSON.bool req.Plan.model.AutoUpgradeCapacity.ValueBool),
               ("name", JSON.str req.Plan.model.Name.ValueString)] },
          { Method := "GET",
            URL := clusterEndpoint ++ "/" ++ req.Plan.model.ID.ValueString,
            Header := [("Content-Type", "application/json"), ("Accept", "application/json"),
                       ("X-TYPESENSE-CLOUD-MANAGEMENT-API-KEY", cr.client.key)],
            Body := none } ]
      ∧ (∀ (c : typesenseClient) (model : typesenseCluster),
          (c.UpdateClusterRequest model).Body =
              some [("auto_upgrade_capacity", JSON.bool model.AutoUpgradeCapacity),
                    ("name", JSON.str model.Name)]
            ∧ (UpdateClusterParams model).map Prod.fst = ["auto_upgrade_capacity", "name"]) := by
  refine ⟨?_, fun c model => ⟨rfl, rfl⟩⟩
  unfold clusterResource.Update
  simp only []
  split
  · exact List.nil_prefix
  · cases patch with
    | newRequestFailed e => simp [typesenseClient.UpdateCluster, Exchange.sent]
    | done r1 e1 =>
      simp only [Exchange.sent, typesenseClient.UpdateClusterRequest,
        typesenseClient.GetClusterRequest, typesenseClient.setHeaders, UpdateClusterParams,
        List.nil_append]
      generalize cr.client.UpdateCluster _ (Exchange.done r1 e1) = o1
      rcases o1 with _ | _ | _ <;> dsimp only
      · cases fetch with
        | newRequestFailed e => simp [typesenseClient.GetCluster]
        | done r2 e2 =>
          generalize cr.client.GetCluster _ (Exchange.done r2 e2) = o2
          rcases o2 with c | _ | _ <;> dsimp only
          · split <;> simp
          · simp
          · simp
      · simp
      · simp

/-! ### Polling and the record `Create` stores -/

/-- An operation that returned a value went through the transport. -/
theorem sent_of_GetCluster_ok {c : typesenseClient} {id : String} {x : Exchange}
    {v : typesenseCluster} (h : c.GetCluster id x = .ok v) (r : HTTPRequest) :
    x.sent r = [r] := by
  cases x with
  | newRequestFailed e => simp [typesenseClient.GetCluster] at h
  | done _ _ => rfl

/-- The loop goes round for every answer that is not `in_service` and breaks at the
first one that is. -/
theorem poll_reaches (cr : clusterResource) (id : String) (pre : List Exchange)
    (last : Exchange) (extra : List Exchange) (c : typesenseCluster)
    (hpre : ∀ x ∈ pre, ∃ c', cr.client.GetCluster id x = .ok c' ∧ c'.Status ≠ "in_service")
    (hlast : cr.client.GetCluster id last = .ok c) (hs : c.Status = "in_service") :
    (cr.poll id (pre ++ last :: extra)).result = .inService c
      ∧ (cr.poll id (pre ++ last :: extra)).fetches = pre.length + 1
      ∧ (cr.poll id (pre ++ last :: extra)).sent =
          List.replicate (pre.length + 1) (cr.client.GetClusterRequest id) := by
  induction pre with
  | nil =>
    simp [clusterResource.poll, hlast, hs, sent_of_GetCluster_ok hlast]
  | cons x pre ih =>
    obtain ⟨c', hx, hne⟩ := hpre x (List.mem_cons_self _ _)
    have ih' := ih (fun y hy => hpre y (List.mem_cons_of_mem _ hy))
    obtain ⟨h1, h2, h3⟩ := ih'
    have hlen : 1 + (pre.length + 1) = pre.length + 1 + 1 := by omega
    simp [clusterResource.poll, hx, hne, h1, h2, h3, sent_of_GetCluster_ok hx, hlen,
      List.replicate_succ]

/-- What `Create` does when the plan is read without error, the create call returns a
cluster, and the loop breaks with a cluster whose region list is not empty. -/
theorem Create_inService (cr : clusterResource) (req : CreateRequest)
    (resp : ResourceResponse) (create : Exchange) (fetches : List Exchange)
    (created cluster : typesenseCluster) (region : String) (rest : List String)
    (hplan : Diagnostics.HasError (Diagnostics.Append resp.Diagnostics req.Plan.diags) = false)
    (hcreate : ∀ m, cr.client.CreateCluster m create = .ok created)
    (hpoll : (cr.poll created.ID fetches).result = .inService cluster)
    (hregions : cluster.Regions = region :: rest) :
    (cr.Create req resp create fetches).resp =
        { Diagnostics := Diagnostics.Append resp.Diagnostics req.Plan.diags,
          State := some
            { ID := .known cluster.ID, Name := .known cluster.Name,
              Memory := .known cluster.Memory, VCPU := .known cluster.VCPU,
              HighPerformanceDisk := .known cluster.HighPerformanceDisk,
              TypesenseServerVersion := .known cluster.TypesenseServerVersion,
              HighAvailability := .known cluster.HighAvailability,
              SearchDeliveryNetwork := .known cluster.SearchDeliveryNetwork,
              LoadBalancing := .known cluster.LoadBalancing,
              Region := .known region,
              AutoUpgradeCapacity := .known cluster.AutoUpgradeCapacity,
              Status := .known cluster.Status,
              Hostnames := .object
                { LoadBalanced := .known cluster.Hostnames.LoadBalanced,
                  Nodes := cluster.Hostnames.Nodes.map TFString.known } } }
      ∧ (cr.Create req resp create fetches).fetches = (cr.poll created.ID fetches).fetches
      ∧ (cr.Create req resp create fetches).ending = .returned
      ∧ ∃ post, (cr.Create req resp create fetches).sent =
          post :: (cr.poll created.ID fetches).sent ∧ post.Method = "POST" := by
  have hsent : ∀ r, create.sent r = [r] := by
    intro r
    cases create with
    | newRequestFailed e => simpa [typesenseClient.CreateCluster] using hcreate typesenseCluster.zero
    | done _ _ => rfl
  unfold clusterResource.Create
  simp only [hplan, hcreate, hpoll, hregions, hsent]
  simp [types.StringValue, types.BoolValue, typesenseClient.CreateClusterRequest,
    typesenseClient.setHeaders]

/-- Claim C2, as amended (polling termination): let the plan be read without error
and the create call return a cluster. If the first `n - 1` fetch answers (`pre`) are
successful with a status other than `in_service`, and the `n`-th (`last`) is
successful with status `in_service` and a region list that is not empty, then
`Create` makes exactly `n` fetch calls (whatever answers would follow), returns, and
stores a record whose identifier, name, memory, vCPU, disk, version, high
availability, network modes, status and hostnames are those of the `n`-th answer. -/
theorem C2_polling_termination (cr : clusterResource) (req : CreateRequest)
    (resp : ResourceResponse) (create : Exchange) (pre : List Exchange) (last : Exchange)
    (extra : List Exchange) (created c : typesenseCluster) (region : String)
    (rest : List String)
    (hplan : Diagnostics.HasError (Diagnostics.Append resp.Diagnostics req.Plan.diags) = false)
    (hcreate : ∀ m, cr.client.CreateCluster m create = .ok created)
    (hpre : ∀ x ∈ pre, ∃ c', cr.client.GetCluster created.ID x = .ok c'
              ∧ c'.Status ≠ "in_service")
    (hlast : cr.client.GetCluster created.ID last = .ok c)
    (hstatus : c.Status = "in_service")
    (hregions : c.Regions = region :: rest) :
    (cr.Create req resp create (pre ++ last :: extra)).fetches = pre.length + 1
      ∧ (cr.Create req resp create (pre ++ last :: extra)).ending = .returned
      ∧ (cr.Create req resp create (pre ++ last :: extra)).sent.tail =
          List.replicate (pre.length + 1) (cr.client.GetClusterRequest created.ID)
      ∧ (cr.Create req resp create (pre ++ last :: extra)).resp.State = some
          { ID := .known c.ID, Name := .known c.Name, Memory := .known c.Memory,
            VCPU := .known c.VCPU, HighPerformanceDisk := .known c.HighPerformanceDisk,
            TypesenseServerVersion := .known c.TypesenseServerVersion,
            HighAvailability := .known c.HighAvailability,
            SearchDeliveryNetwork := .known c.SearchDeliveryNetwork,
            LoadBalancing := .known c.LoadBalancing,
            Region := .known region,
            AutoUpgradeCapacity := .known c.AutoUpgradeCapacity,
            Status := .known c.Status,
            Hostnames := .object
              { LoadBalanced := .known c.Hostnames.LoadBalanced,
                Nodes := c.Hostnames.Nodes.map TFString.known } } := by
  obtain ⟨hres, hn, hsent⟩ := poll_reaches cr created.ID pre last extra c hpre hlast hstatus
  obtain ⟨h1, h2, h3, post, h4, _⟩ :=
    Create_inService cr req resp create (pre ++ last :: extra) created c region rest
      hplan hcreate hres hregions
  refine ⟨by rw [h2, hn], h3, by rw [h4, List.tail_cons, hsent], by rw [h1]⟩

/-- Witness of C2 with statuses provisioning, provisioning, in_service: three fetches,
and the stored record is the one of the third answer. -/
theorem C2_polling_termination_witness :
    (sampleResource.Create sampleCreateRequest emptyResponse createdAnswer
        [provisioningAnswer, provisioningAnswer, inServiceAnswer ["us-east-1"]]).fetches = 3
      ∧ (sampleResource.Create sampleCreateRequest emptyResponse createdAnswer
        [provisioningAnswer, provisioningAnswer, inServiceAnswer ["us-east-1"]]).resp.State
          = some (inServiceRecord "us-east-1") := by
  have h := C2_polling_termination sampleResource sampleCreateRequest emptyResponse
    createdAnswer [provisioningAnswer, provisioningAnswer] (inServiceAnswer ["us-east-1"]) []
    { typesenseCluster.zero with ID := "abc123", Status := "provisioning" }
    (inServiceCluster ["us-east-1"]) "us-east-1" []
    (by decide) (fun _ => by rfl)
    (by
      intro x hx
      refine ⟨{ typesenseCluster.zero with
                ID := "abc123", Status := "provisioning", Regions := ["us-east-1"] }, ?_, ?_⟩
      · simp only [List.mem_cons, List.mem_singleton, List.not_mem_nil, or_false, or_self] at hx
        subst hx
        rfl
      · decide)
    (by rfl) (by rfl) (by rfl)
  exact ⟨h.1, h.2.2.2⟩

/-- Counterexample to C2 as stated: the create call succeeds and the first fetch is
successful with status `in_service`, but its document carries no region list. `Create`
makes its one fetch and then panics on `cluster.Regions[0]`: no record is stored. -/
theorem C2_counterexample :
    sampleResource.client.GetCluster "abc123" inServiceNoRegionsAnswer =
        .ok { typesenseCluster.zero with ID := "abc123", Status := "in_service" }
      ∧ (sampleResource.Create sampleCreateRequest emptyResponse createdAnswer
          [inServiceNoRegionsAnswer]).fetches = 1
      ∧ (sampleResource.Create sampleCreateRequest emptyResponse createdAnswer
          [inServiceNoRegionsAnswer]).resp.State = none
      ∧ (sampleResource.Create sampleCreateRequest emptyResponse createdAnswer
          [inServiceNoRegionsAnswer]).ending = .panicked indexOutOfRange := by
  refine ⟨by rfl, by rfl, by rfl, by rfl⟩

/-- Claim C3 (error propagation in `Create`), evaluated where it fails: the create
call returns the identifier `id`, then the first fetch fails. When the fetch returns a
decoding error, `Create` returns with the single diagnostic below and no state: the
response is the same for every `id`, so the assigned identifier is not in it. When
the fetch is a transport failure without a response, `Create` panics and leaves no
diagnostic at all. -/
theorem C3_create_fetch_failure_drops_identifier (id : String) :
    (sampleResource.Create sampleCreateRequest emptyResponse (createdWith id)
        [emptyBodyAnswer]).resp =
        { Diagnostics :=
            [{ severity := .error, summary := "Error waiting for cluster state",
               detail := "Cluster created, but could not reach expected state: "
                 ++ "unexpected end of JSON input" }],
          State := none }
      ∧ (sampleResource.Create sampleCreateRequest emptyResponse (createdWith id)
          [emptyBodyAnswer]).ending = .returned
      ∧ (sampleResource.Create sampleCreateRequest emptyResponse (createdWith id)
          [transportFailure]).resp = { Diagnostics := [], State := none }
      ∧ (sampleResource.Create sampleCreateRequest emptyResponse (createdWith id)
          [transportFailure]).ending = .panicked nilDereference := by
  refine ⟨by rfl, by rfl, by rfl, by rfl⟩

/-! ### Delete -/

/-- Adding an error leaves the diagnostics with an error. -/
theorem HasError_AddError (ds : List Diagnostic) (summary detail : String) :
    Diagnostics.HasError (Diagnostics.AddError ds summary detail) = true := by
  unfold Diagnostics.AddError Diagnostics.Append Diagnostics.HasError
  simp only [List.foldl_cons, List.foldl_nil]
  split
  · rename_i h
    exact List.any_eq_true.mpr ⟨_, h, by simp⟩
  · simp

/-- Claim C4, as amended (no not-found downgrade in `Delete`): when the state is read
without error and the terminate call gets a response whose body decodes, `Delete`
returns; it adds no diagnostic when the decoded success flag is true, and when the
flag is false (as in a report that the cluster does not exist) it adds the error
`Error Deleting Typesense Cluster` with the raw body. So `Delete` ends without an
error exactly when the flag is true, whatever the status code. -/
theorem C4_delete_reports_rejected_terminate (cr : clusterResource) (req : DeleteRequest)
    (resp : ResourceResponse) (r : HTTPResponse) (doc : JSON)
    (response : typesenseClusterCreateResponse)
    (hstate : Diagnostics.HasError (Diagnostics.Append resp.Diagnostics req.State.diags) = false)
    (hjson : r.Body.json = .ok doc)
    (hdecode : unmarshalCreateResponse typesenseClusterCreateResponse.zero doc = .ok response) :
    (cr.Delete req resp (.done (some r) none)).ending = .returned
      ∧ (cr.Delete req resp (.done (some r) none)).resp.State = resp.State
      ∧ (response.Success = true →
          (cr.Delete req resp (.done (some r) none)).resp.Diagnostics =
            Diagnostics.Append resp.Diagnostics req.State.diags)
      ∧ (response.Success = false →
          (cr.Delete req resp (.done (some r) none)).resp.Diagnostics =
            Diagnostics.AddError (Diagnostics.Append resp.Diagnostics req.State.diags)
              "Error Deleting Typesense Cluster"
              ("Could not delete cluster, unexpected error: " ++ r.Body.raw))
      ∧ (Diagnostics.HasError (cr.Delete req resp (.done (some r) none)).resp.Diagnostics = true
          ↔ response.Success = false) := by
  unfold clusterResource.Delete
  simp only [hstate, typesenseClient.TerminateCluster, hjson, hdecode]
  cases hflag : response.Success
  · simp [HasError_AddError]
  · simp [hstate]

/-- Witness of C4 at the not-found answer for the tracked cluster `abc123`. -/
theorem C4_delete_reports_rejected_terminate_witness :
    Diagnostics.HasError
      (sampleResource.Delete sampleDeleteRequest trackedResponse notFoundAnswer).resp.Diagnostics
        = true := by
  have h := C4_delete_reports_rejected_terminate sampleResource sampleDeleteRequest
    trackedResponse
    { StatusCode := 404,
      Body := { raw := "\x7b\"success\":false,\"message\":\"Cluster not found\"\x7d",
                json := .ok (.obj [("success", .bool false),
                                   ("message", .str "Cluster not found")]) } }
    (.obj [("success", .bool false), ("message", .str "Cluster not found")])
    typesenseClusterCreateResponse.zero (by decide) (by rfl) (by rfl)
  exact h.2.2.2.2.mpr (by rfl)

/-- Counterexample to C4 as stated: a first `Delete` whose terminate call is accepted
ends without error; a second `Delete` on the same identifier, answered that the
cluster does not exist, ends with an error diagnostic carrying the raw body. -/
theorem C4_counterexample :
    (sampleResource.Delete sampleDeleteRequest trackedResponse acceptedAnswer).resp.Diagnostics
        = []
      ∧ (sampleResource.Delete sampleDeleteRequest trackedResponse notFoundAnswer).resp.Diagnostics
        = [{ severity := .error, summary := "Error Deleting Typesense Cluster",
             detail := "Could not delete cluster, unexpected error: "
               ++ "\x7b\"success\":false,\"message\":\"Cluster not found\"\x7d" }]
      ∧ Diagnostics.HasError
          (sampleResource.Delete sampleDeleteRequest trackedResponse
            notFoundAnswer).resp.Diagnostics = true := by
  refine ⟨by rfl, by rfl, by rfl⟩

/-! ### The success flag -/

/-- A member whose key does not fold to `success` leaves the flag of a create
response as it is. -/
theorem createResponse_setField_success (r r' : typesenseClusterCreateResponse)
    (key : String) (v : JSON) (hkey : foldName key ≠ "success")
    (h : r.setField key v = .ok r') : r'.Success = r.Success := by
  unfold typesenseClusterCreateResponse.setField at h
  simp only [hkey, if_false] at h
  split at h
  · cases hc : unmarshalCluster r.Cluster v with
    | error e => simp [hc, bind, Except.bind] at h
    | ok c =>
      simp [hc, bind, Except.bind, pure, Except.pure] at h
      subst h
      rfl
  · simp [pure, Except.pure] at h
    subst h
    rfl

/-- A document with no member folding to `success` decodes with the flag unchanged. -/
theorem createResponse_members_success (kvs : List (String × JSON))
    (r r' : typesenseClusterCreateResponse)
    (hkeys : ∀ kv ∈ kvs, foldName kv.1 ≠ "success")
    (h : kvs.foldlM (fun r kv => r.setField kv.1 kv.2) r = .ok r') :
    r'.Success = r.Success := by
  induction kvs generalizing r with
  | nil =>
    simp [List.foldlM, pure, Except.pure] at h
    subst h
    rfl
  | cons kv kvs ih =>
    rw [List.foldlM_cons] at h
    cases hstep : r.setField kv.1 kv.2 with
    | error e => simp [hstep, bind, Except.bind] at h
    | ok r1 =>
      simp only [hstep, bind, Except.bind] at h
      rw [ih r1 (fun kv' hkv => hkeys kv' (List.mem_cons_of_mem _ hkv)) h]
      exact createResponse_setField_success r r1 kv.1 kv.2
        (hkeys kv (List.mem_cons_self _ _)) hstep

/-- A member whose key does not fold to `success` leaves the flag of an API-keys
response as it is. -/
theorem apiKeysResponse_setField_success (r r' : typesenseClusterApiKeysCreateResponse)
    (key : String) (v : JSON) (hkey : foldName key ≠ "success")
    (h : r.setField key v = .ok r') : r'.Success = r.Success := by
  unfold typesenseClusterApiKeysCreateResponse.setField at h
  simp only [hkey, if_false] at h
  split at h
  · cases hc : unmarshalApiKeys r.ClusterApiKeys v with
    | error e => simp [hc, bind, Except.bind] at h
    | ok c =>
      simp [hc, bind, Except.bind, pure, Except.pure] at h
      subst h
      rfl
  · simp [pure, Except.pure] at h
    subst h
    rfl

/-- A document with no member folding to `success` decodes with the flag unchanged. -/
theorem apiKeysResponse_members_success (kvs : List (String × JSON))
    (r r' : typesenseClusterApiKeysCreateResponse)
    (hkeys : ∀ kv ∈ kvs, foldName kv.1 ≠ "success")
    (h : kvs.foldlM (fun r kv => r.setField kv.1 kv.2) r = .ok r') :
    r'.Success = r.Success := by
  induction kvs generalizing r with
  | nil =>
    simp [List.foldlM, pure, Except.pure] at h
    subst h
    rfl
  | cons kv kvs ih =>
    rw [List.foldlM_cons] at h
    cases hstep : r.setField kv.1 kv.2 with
    | error e => simp [hstep, bind, Except.bind] at h
    | ok r1 =>
      simp only [hstep, bind, Except.bind] at h
      rw [ih r1 (fun kv' hkv => hkeys kv' (List.mem_cons_of_mem _ hkv)) h]
      exact apiKeysResponse_setField_success r r1 kv.1 kv.2
        (hkeys kv (List.mem_cons_self _ _)) hstep

/-- Claim C5 (success-flag convention): let the transport deliver a response `r`
without error, whose body is the JSON document `doc`. For `CreateCluster`,
`UpdateCluster` and `TerminateCluster`, whenever `doc` decodes into the create
response struct, and for `CreateClusterApiKeys`, whenever it decodes into the
API-keys response struct: the operation returns the error whose message is the raw
body when the decoded success flag is false, and returns no error when it is true.
A document with no `success` member decodes with the flag false. -/
theorem C5_success_flag_convention (c : typesenseClient) (model : typesenseCluster)
    (id : String) (keys : typesenseClusterApiKeys) (r : HTTPResponse) (doc : JSON)
    (hjson : r.Body.json = .ok doc) :
    (∀ response,
        unmarshalCreateResponse typesenseClusterCreateResponse.zero doc = .ok response →
        c.CreateCluster model (.done (some r) none)
            = (if response.Success then .ok response.Cluster else .err r.Body.raw)
          ∧ c.UpdateCluster model (.done (some r) none)
            = (if response.Success then .ok () else .err r.Body.raw)
          ∧ c.TerminateCluster id (.done (some r) none)
            = (if response.Success then .ok () else .err r.Body.raw)
          ∧ (∀ kvs, doc = .obj kvs → (∀ kv ∈ kvs, foldName kv.1 ≠ "success") →
              response.Success = false))
      ∧ (∀ response,
        unmarshalApiKeysCreateResponse typesenseClusterApiKeysCreateResponse.zero doc
          = .ok response →
        c.CreateClusterApiKeys keys (.done (some r) none)
            = (if response.Success
                then .ok { response.ClusterApiKeys with
                           ClusterId := keys.ClusterId, Id := keys.ClusterId }
                else .err r.Body.raw)
          ∧ (∀ kvs, doc = .obj kvs → (∀ kv ∈ kvs, foldName kv.1 ≠ "success") →
              response.Success = false)) := by
  constructor
  · intro response hdecode
    refine ⟨?_, ?_, ?_, ?_⟩
    · simp only [typesenseClient.CreateCluster, hjson, hdecode]
      cases response.Success <;> simp
    · simp only [typesenseClient.UpdateCluster, hjson, hdecode]
      cases response.Success <;> simp
    · simp only [typesenseClient.TerminateCluster, hjson, hdecode]
      cases response.Success <;> simp
    · intro kvs hdoc hkeys
      subst hdoc
      exact createResponse_members_success kvs _ response hkeys hdecode
  · intro response hdecode
    refine ⟨?_, ?_⟩
    · simp only [typesenseClient.CreateClusterApiKeys, hjson, hdecode]
      cases response.Success <;> simp
    · intro kvs hdoc hkeys
      subst hdoc
      exact apiKeysResponse_members_success kvs _ response hkeys hdecode

/-- Witness of C5 at a response whose document has no `success` member: the flag
decodes as false and `CreateCluster` returns the raw body as its error. -/
theorem C5_success_flag_convention_witness :
    sampleResource.client.CreateCluster typesenseCluster.zero
        (.done (some flaglessResponse) none) = .err "\x7b\"message\":\"queued\"\x7d"
      ∧ sampleResource.client.CreateClusterApiKeys typesenseClusterApiKeys.zero
        (.done (some flaglessResponse) none) = .err "\x7b\"message\":\"queued\"\x7d" := by
  have h := C5_success_flag_convention sampleResource.client typesenseCluster.zero "abc123"
    typesenseClusterApiKeys.zero flaglessResponse (.obj [("message", .str "queued")])
    (by rfl)
  exact ⟨(h.1 typesenseClusterCreateResponse.zero (by rfl)).1,
    (h.2 typesenseClusterApiKeysCreateResponse.zero (by rfl)).1⟩

/-! ### Fetch -/

/-- A member whose key folds to none of the cluster tags is skipped. -/
theorem cluster_setField_other (c : typesenseCluster) (key : String) (v : JSON)
    (hkey : foldName key ∉ clusterTags) : c.setField key v = .ok c := by
  simp only [clusterTags, List.mem_cons, List.mem_singleton, List.not_mem_nil, or_false,
    not_or] at hkey
  obtain ⟨h1, h2, h3, h4, h5, h6, h7, h8, h9, h10, h11, h12, h13⟩ := hkey
  simp [typesenseCluster.setField, h1, h2, h3, h4, h5, h6, h7, h8, h9, h10, h11, h12, h13,
    pure, Except.pure]

/-- A document none of whose members is a cluster field decodes to the record it is
decoded over. -/
theorem cluster_members_other (kvs : List (String × JSON)) (c : typesenseCluster)
    (hkeys : ∀ kv ∈ kvs, foldName kv.1 ∉ clusterTags) :
    kvs.foldlM (fun c kv => c.setField kv.1 kv.2) c = .ok c := by
  induction kvs with
  | nil => rfl
  | cons kv kvs ih =>
    rw [List.foldlM_cons, cluster_setField_other c kv.1 kv.2 (hkeys kv (List.mem_cons_self _ _))]
    exact ih (fun kv' hkv => hkeys kv' (List.mem_cons_of_mem _ hkv))

/-- Claim C6, as amended (what a fetch reports): `GetCluster` looks neither at the
status code nor at a success flag. When the transport delivers a response whose
document decodes into the cluster struct, that record is returned with no error; a
JSON object none of whose members is a cluster field (such as an error report with
`success` and `message`) comes back as the zero-valued record. The errors that
`GetCluster` does return are reported by `Read`: it adds the diagnostic
`Error Reading Typesense Cluster` naming the identifier, leaves the state as it was,
and returns. -/
theorem C6_fetch_reports_undecodable_only (cr : clusterResource) (req : ReadRequest)
    (resp : ResourceResponse) (fetch : Exchange)
    (hstate : Diagnostics.HasError (Diagnostics.Append resp.Diagnostics req.State.diags) = false) :
    (∀ r doc cluster, fetch = .done (some r) none → r.Body.json = .ok doc →
        unmarshalCluster typesenseCluster.zero doc = .ok cluster →
        cr.client.GetCluster req.State.model.ID.ValueString fetch = .ok cluster)
      ∧ (∀ r kvs, fetch = .done (some r) none → r.Body.json = .ok (.obj kvs) →
        (∀ kv ∈ kvs, foldName kv.1 ∉ clusterTags) →
        cr.client.GetCluster req.State.model.ID.ValueString fetch = .ok typesenseCluster.zero)
      ∧ (∀ e, cr.client.GetCluster req.State.model.ID.ValueString fetch = .err e →
        (cr.Read req resp fetch).resp =
            { Diagnostics := Diagnostics.AddError
                (Diagnostics.Append resp.Diagnostics req.State.diags)
                "Error Reading Typesense Cluster"
                ("Could not read Typesense Cluster ID " ++ req.State.model.ID.ValueString
                  ++ ": " ++ e),
              State := resp.State }
          ∧ (cr.Read req resp fetch).ending = .returned) := by
  refine ⟨?_, ?_, ?_⟩
  · intro r doc cluster hfetch hjson hdecode
    subst hfetch
    simp [typesenseClient.GetCluster, hjson, hdecode]
  · intro r kvs hfetch hjson hkeys
    subst hfetch
    simp [typesenseClient.GetCluster, hjson, unmarshalCluster,
      cluster_members_other kvs typesenseCluster.zero hkeys]
  · intro e he
    unfold clusterResource.Read
    simp only [hstate, he]
    simp

/-- Witness of C6: the not-found report decodes to the zero-valued record, which
`GetCluster` returns without error; an empty body is an error, which `Read` reports. -/
theorem C6_fetch_reports_undecodable_only_witness :
    sampleResource.client.GetCluster "abc123" notFoundAnswer = .ok typesenseCluster.zero
      ∧ (sampleResource.Read sampleReadRequest trackedResponse emptyBodyAnswer).resp =
        { Diagnostics :=
            [{ severity := .error, summary := "Error Reading Typesense Cluster",
               detail := "Could not read Typesense Cluster ID abc123: "
                 ++ "unexpected end of JSON input" }],
          State := some (inServiceRecord "us-east-1") } := by
  refine ⟨?_, ?_⟩
  · exact (C6_fetch_reports_undecodable_only sampleResource sampleReadRequest trackedResponse
      notFoundAnswer (by decide)).2.1 _ _ rfl rfl (by decide)
  · exact ((C6_fetch_reports_undecodable_only sampleResource sampleReadRequest trackedResponse
      emptyBodyAnswer (by decide)).2.2 "unexpected end of JSON input" (by rfl)).1

/-- Counterexample to C6 as stated: the remote side answers 404 with an error report
(`success` false, no cluster fields). `GetCluster` returns a cluster record, the
zero-valued one, and no error; `Read` reports no failure: it adds no diagnostic. -/
theorem C6_counterexample :
    sampleResource.client.GetCluster "abc123" notFoundAnswer = .ok typesenseCluster.zero
      ∧ (sampleResource.Read sampleReadRequest trackedResponse notFoundAnswer).resp.Diagnostics
          = [] := by
  refine ⟨by rfl, by rfl⟩

/-- Claim C7 (transport failures), evaluated where it fails: when `hc.Do` returns no
response and the error `e`, each of the five client operations evaluates `resp.Body`
of the nil response in its `defer` statement, before the error check, and panics
with a nil dereference instead of returning `e`. -/
theorem C7_transport_failure_panics (c : typesenseClient) (id : String)
    (model : typesenseCluster) (keys : typesenseClusterApiKeys) (e : String) :
    c.GetCluster id (.done none (some e)) = .panic nilDereference
      ∧ c.CreateCluster model (.done none (some e)) = .panic nilDereference
      ∧ c.UpdateCluster model (.done none (some e)) = .panic nilDereference
      ∧ c.TerminateCluster id (.done none (some e)) = .panic nilDereference
      ∧ c.CreateClusterApiKeys keys (.done none (some e)) = .panic nilDereference :=
  ⟨rfl, rfl, rfl, rfl, rfl⟩

/-! ### The records that `Read` and `Update` store -/

/-- What `Read` does when the state is read without error and the fetch returns a
cluster whose region list is not empty: every attribute but `hostnames` is
overwritten from the fetched cluster. -/
theorem Read_ok (cr : clusterResource) (req : ReadRequest) (resp : ResourceResponse)
    (fetch : Exchange) (cluster : typesenseCluster) (region : String) (rest : List String)
    (hstate : Diagnostics.HasError (Diagnostics.Append resp.Diagnostics req.State.diags) = false)
    (hfetch : cr.client.GetCluster req.State.model.ID.ValueString fetch = .ok cluster)
    (hregions : cluster.Regions = region :: rest) :
    (cr.Read req resp fetch).resp =
        { Diagnostics := Diagnostics.Append resp.Diagnostics req.State.diags,
          State := some
            { ID := .known cluster.ID, Name := .known cluster.Name,
              Memory := .known cluster.Memory, VCPU := .known cluster.VCPU,
              HighPerformanceDisk := .known cluster.HighPerformanceDisk,
              TypesenseServerVersion := .known cluster.TypesenseServerVersion,
              HighAvailability := .known cluster.HighAvailability,
              SearchDeliveryNetwork := .known cluster.SearchDeliveryNetwork,
              LoadBalancing := .known cluster.LoadBalancing,
              Region := .known region,
              AutoUpgradeCapacity := .known cluster.AutoUpgradeCapacity,
              Status := .known cluster.Status,
              Hostnames := req.State.model.Hostnames } }
      ∧ (cr.Read req resp fetch).ending = .returned := by
  unfold clusterResource.Read
  simp only [hstate, hfetch, hregions]
  simp [types.StringValue, types.BoolValue]

/-- What `Update` does when the plan is read without error, the patch is accepted and
the fetch returns a cluster whose region list is not empty. -/
theorem Update_ok (cr : clusterResource) (req : UpdateRequest) (resp : ResourceResponse)
    (patch fetch : Exchange) (cluster : typesenseCluster) (region : String)
    (rest : List String)
    (hplan : Diagnostics.HasError (Diagnostics.Append resp.Diagnostics req.Plan.diags) = false)
    (hpatch : ∀ m, cr.client.UpdateCluster m patch = .ok ())
    (hfetch : cr.client.GetCluster req.Plan.model.ID.ValueString fetch = .ok cluster)
    (hregions : cluster.Regions = region :: rest) :
    (cr.Update req resp patch fetch).resp =
        { Diagnostics := Diagnostics.Append resp.Diagnostics req.Plan.diags,
          State := some
            { ID := .known cluster.ID, Name := .known cluster.Name,
              Memory := .known cluster.Memory, VCPU := .known cluster.VCPU,
              HighPerformanceDisk := .known cluster.HighPerformanceDisk,
              TypesenseServerVersion := .known cluster.TypesenseServerVersion,
              HighAvailability := .known cluster.HighAvailability,
              SearchDeliveryNetwork := .known cluster.SearchDeliveryNetwork,
              LoadBalancing := .known cluster.LoadBalancing,
              Region := .known region,
              AutoUpgradeCapacity := .known cluster.AutoUpgradeCapacity,
              Status := .known cluster.Status,
              Hostnames := .object
                { LoadBalanced := .known cluster.Hostnames.LoadBalanced,
                  Nodes := cluster.Hostnames.Nodes.map TFString.known } } }
      ∧ (cr.Update req resp patch fetch).ending = .returned := by
  unfold clusterResource.Update
  simp only [hplan, hpatch, hfetch, hregions]
  simp [types.StringValue, types.BoolValue]

/-- Appending no diagnostics changes nothing. -/
theorem Append_nil (ds : List Diagnostic) : Diagnostics.Append ds [] = ds := rfl

/-- Claim C8 (`Read` refreshes every observed field), evaluated where it fails: the
tracked record holds the hostnames `old...` and the fetch returns the cluster with
load-balanced hostname `abc123.a1.typesense.net` and one node. The record `Read`
writes takes version, status and both network modes from the fetch, and keeps the
old hostnames. After an import, where the tracked hostnames are null, they stay null. -/
theorem C8_read_keeps_hostnames :
    (sampleResource.Read { State := { model := staleRecord, diags := [] } }
        { Diagnostics := [], State := some staleRecord }
        (inServiceAnswer ["us-east-1"])).resp.State =
        some { inServiceRecord "us-east-1" with
               Hostnames := .object { LoadBalanced := .known "old.a1.typesense.net",
                                      Nodes := [.known "old-1.a1.typesense.net"] } }
      ∧ sampleResource.client.GetCluster "abc123" (inServiceAnswer ["us-east-1"]) =
          .ok (inServiceCluster ["us-east-1"])
      ∧ (inServiceCluster ["us-east-1"]).Hostnames =
          { LoadBalanced := "abc123.a1.typesense.net", Nodes := ["abc123-1.a1.typesense.net"] }
      ∧ (sampleResource.Read
          { State := { model := { typesenseClusterModel.null with ID := .known "abc123" },
                       diags := [] } }
          (sampleResource.ImportState { ID := "abc123" } emptyResponse)
          (inServiceAnswer ["us-east-1"])).resp.State =
        some { inServiceRecord "us-east-1" with Hostnames := .null } := by
  refine ⟨by rfl, by rfl, by rfl, by rfl⟩

/-- Claim C9 (single-region collapse): let the fetched cluster have the region list
`region :: rest`. Then `Create` (its loop having ended with that cluster), `Read`,
`Update` (the patch accepted), and `Read` after `ImportState` each store a record
whose region is exactly `region`, the first element. -/
theorem C9_single_region_collapse (cr : clusterResource) (creq : CreateRequest)
    (rreq : ReadRequest) (ureq : UpdateRequest) (ireq : ImportStateRequest)
    (resp : ResourceResponse) (create patch fetch : Exchange) (fetches : List Exchange)
    (created cluster : typesenseCluster) (region : String) (rest : List String)
    (hregions : cluster.Regions = region :: rest)
    (hresp : Diagnostics.HasError resp.Diagnostics = false)
    (hcreq : Diagnostics.HasError (Diagnostics.Append resp.Diagnostics creq.Plan.diags) = false)
    (hrreq : Diagnostics.HasError (Diagnostics.Append resp.Diagnostics rreq.State.diags) = false)
    (hureq : Diagnostics.HasError (Diagnostics.Append resp.Diagnostics ureq.Plan.diags) = false)
    (hcreate : ∀ m, cr.client.CreateCluster m create = .ok created)
    (hpoll : (cr.poll created.ID fetches).result = .inService cluster)
    (hpatch : ∀ m, cr.client.UpdateCluster m patch = .ok ())
    (hfetch : ∀ id, cr.client.GetCluster id fetch = .ok cluster) :
    (cr.Create creq resp create fetches).resp.State.map (fun st => st.Region)
        = some (.known region)
      ∧ (cr.Read rreq resp fetch).resp.State.map (fun st => st.Region)
        = some (.known region)
      ∧ (cr.Update ureq resp patch fetch).resp.State.map (fun st => st.Region)
        = some (.known region)
      ∧ (cr.Read
          { State := { model := ((cr.ImportState ireq resp).State.getD typesenseClusterModel.null),
                       diags := [] } }
          (cr.ImportState ireq resp) fetch).resp.State.map (fun st => st.Region)
        = some (.known region) := by
  refine ⟨?_, ?_, ?_, ?_⟩
  · rw [(Create_inService cr creq resp create fetches created cluster region rest hcreq
      hcreate hpoll hregions).1]
    rfl
  · rw [(Read_ok cr rreq resp fetch cluster region rest hrreq (hfetch _) hregions).1]
    rfl
  · rw [(Update_ok cr ureq resp patch fetch cluster region rest hureq hpatch (hfetch _)
      hregions).1]
    rfl
  · rw [(Read_ok cr _ (cr.ImportState ireq resp) fetch cluster region rest
      (by simpa [clusterResource.ImportState, Append_nil] using hresp) (hfetch _) hregions).1]
    rfl

/-- Witness of C9 for the remote list us-east-1, us-west-2: the stored region is
us-east-1 after `Create`, `Read`, `Update`, and `Read` after import. -/
theorem C9_single_region_collapse_witness :
    (sampleResource.Create sampleCreateRequest emptyResponse createdAnswer
        [provisioningAnswer, inServiceAnswer ["us-east-1", "us-west-2"]]).resp.State.map
          (fun st => st.Region) = some (.known "us-east-1")
      ∧ (sampleResource.Read sampleReadRequest emptyResponse
        (inServiceAnswer ["us-east-1", "us-west-2"])).resp.State.map
          (fun st => st.Region) = some (.known "us-east-1")
      ∧ (sampleResource.Update sampleUpdateRequest emptyResponse acceptedAnswer
        (inServiceAnswer ["us-east-1", "us-west-2"])).resp.State.map
          (fun st => st.Region) = some (.known "us-east-1")
      ∧ (sampleResource.Read
          { State := { model := { typesenseClusterModel.null with ID := .known "abc123" },
                       diags := [] } }
          (sampleResource.ImportState { ID := "abc123" } emptyResponse)
          (inServiceAnswer ["us-east-1", "us-west-2"])).resp.State.map
          (fun st => st.Region) = some (.known "us-east-1") :=
  C9_single_region_collapse sampleResource sampleCreateRequest sampleReadRequest
    sampleUpdateRequest { ID := "abc123" } emptyResponse createdAnswer acceptedAnswer
    (inServiceAnswer ["us-east-1", "us-west-2"])
    [provisioningAnswer, inServiceAnswer ["us-east-1", "us-west-2"]]
    { typesenseCluster.zero with ID := "abc123", Status := "provisioning" }
    (inServiceCluster ["us-east-1", "us-west-2"]) "us-east-1" ["us-west-2"]
    (by rfl) (by decide) (by decide) (by decide) (by decide) (fun _ => by rfl) (by rfl)
    (fun _ => by rfl) (fun _ => by rfl)

/-- Claim C10, as amended (region under reordering): a `Read` whose fetch returns the
region list `r1 :: rest1` stores the region `r1`; a following `Read` of that record
whose fetch returns `r2 :: rest2` stores the region `r2`. The second `Read` leaves the
region as it was exactly when the two lists have the same first element. -/
theorem C10_read_region_follows_first_element (cr : clusterResource) (req : ReadRequest)
    (resp : ResourceResponse) (fetch1 fetch2 : Exchange) (c1 c2 : typesenseCluster)
    (r1 r2 : String) (rest1 rest2 : List String)
    (hstate : Diagnostics.HasError (Diagnostics.Append resp.Diagnostics req.State.diags) = false)
    (hfetch1 : ∀ id, cr.client.GetCluster id fetch1 = .ok c1)
    (hfetch2 : ∀ id, cr.client.GetCluster id fetch2 = .ok c2)
    (hregions1 : c1.Regions = r1 :: rest1) (hregions2 : c2.Regions = r2 :: rest2) :
    ∃ st1 st2,
      (cr.Read req resp fetch1).resp.State = some st1
        ∧ st1.Region = .known r1
        ∧ (cr.Read { State := { model := st1, diags := [] } } (cr.Read req resp fetch1).resp
            fetch2).resp.State = some st2
        ∧ st2.Region = .known r2
        ∧ (st2.Region = st1.Region ↔ r2 = r1) := by
  have key : ∀ (rq : ReadRequest) (rs : ResourceResponse) (f : Exchange)
      (c : typesenseCluster) (r : String) (rest : List String),
      Diagnostics.HasError (Diagnostics.Append rs.Diagnostics rq.State.diags) = false →
      (∀ id, cr.client.GetCluster id f = .ok c) → c.Regions = r :: rest →
      ∃ st, (cr.Read rq rs f).resp.State = some st ∧ st.Region = .known r
        ∧ (cr.Read rq rs f).resp.Diagnostics = Diagnostics.Append rs.Diagnostics rq.State.diags := by
    intro rq rs f c r rest hs hf hr
    obtain ⟨h, _⟩ := Read_ok cr rq rs f c r rest hs (hf _) hr
    exact ⟨_, congrArg ResourceResponse.State h, rfl, congrArg ResourceResponse.Diagnostics h⟩
  obtain ⟨st1, hs1, hr1, hd1⟩ := key req resp fetch1 c1 r1 rest1 hstate hfetch1 hregions1
  obtain ⟨st2, hs2, hr2, _⟩ := key { State := { model := st1, diags := [] } }
    (cr.Read req resp fetch1).resp fetch2 c2 r2 rest2
    (by rw [hd1, Append_nil]; exact hstate) hfetch2 hregions2
  refine ⟨st1, st2, hs1, hr1, hs2, hr2, ?_⟩
  rw [hr1, hr2]
  simp

/-- Witness of C10: after us-east-1, us-west-2 the region is us-east-1; after a later
fetch returning us-west-2, us-east-1 the stored region is us-west-2. -/
theorem C10_read_region_follows_first_element_witness :
    ∃ st1 st2,
      (sampleResource.Read sampleReadRequest emptyResponse
          (inServiceAnswer ["us-east-1", "us-west-2"])).resp.State = some st1
        ∧ st1.Region = .known "us-east-1"
        ∧ (sampleResource.Read { State := { model := st1, diags := [] } }
            (sampleResource.Read sampleReadRequest emptyResponse
              (inServiceAnswer ["us-east-1", "us-west-2"])).resp
            (inServiceAnswer ["us-west-2", "us-east-1"])).resp.State = some st2
        ∧ st2.Region = .known "us-west-2"
        ∧ (st2.Region = st1.Region ↔ "us-west-2" = "us-east-1") :=
  C10_read_region_follows_first_element sampleResource sampleReadRequest emptyResponse
    (inServiceAnswer ["us-east-1", "us-west-2"]) (inServiceAnswer ["us-west-2", "us-east-1"])
    (inServiceCluster ["us-east-1", "us-west-2"]) (inServiceCluster ["us-west-2", "us-east-1"])
    "us-east-1" "us-west-2" ["us-west-2"] ["us-east-1"]
    (by decide) (fun _ => by rfl) (fun _ => by rfl) (by rfl) (by rfl)

/-- Counterexample to C10 as stated: the record's region was set to us-east-1 from the
list us-east-1, us-west-2; a later `Read` whose fetch returns the same regions in
the order us-west-2, us-east-1 changes the record's region to us-west-2. -/
theorem C10_counterexample :
    (sampleResource.Read sampleReadRequest trackedResponse
        (inServiceAnswer ["us-east-1", "us-west-2"])).resp.State
        = some (inServiceRecord "us-east-1")
      ∧ (sampleResource.Read
          { State := { model := inServiceRecord "us-east-1", diags := [] } }
          { Diagnostics := [], State := some (inServiceRecord "us-east-1") }
          (inServiceAnswer ["us-west-2", "us-east-1"])).resp.State
        = some (inServiceRecord "us-west-2")
      ∧ (inServiceRecord "us-west-2").Region ≠ (inServiceRecord "us-east-1").Region := by
  refine ⟨by rfl, by rfl, by decide⟩

/-! ### Create followed by Read -/

/-- Claim C11 (create-then-read consistency): let `Create` succeed, its loop ending
with the fetched cluster `cluster` (region list not empty), and let the fetch of the
`Read` that follows return the same cluster. Then `Read`, given the record `Create`
stored, stores that very record again: identifier, memory, vCPU, region, high
availability, high-performance disk and status (and every other attribute) are the
same. -/
theorem C11_create_then_read (cr : clusterResource) (req : CreateRequest)
    (resp : ResourceResponse) (create fetch : Exchange) (fetches : List Exchange)
    (created cluster : typesenseCluster) (region : String) (rest : List String)
    (hplan : Diagnostics.HasError (Diagnostics.Append resp.Diagnostics req.Plan.diags) = false)
    (hcreate : ∀ m, cr.client.CreateCluster m create = .ok created)
    (hpoll : (cr.poll created.ID fetches).result = .inService cluster)
    (hregions : cluster.Regions = region :: rest)
    (hfetch : ∀ id, cr.client.GetCluster id fetch = .ok cluster) :
    ∃ record,
      (cr.Create req resp create fetches).resp.State = some record
        ∧ (cr.Read { State := { model := record, diags := [] } }
            { Diagnostics := [], State := some record } fetch).resp.State = some record
        ∧ (cr.Read { State := { model := record, diags := [] } }
            { Diagnostics := [], State := some record } fetch).ending = .returned
        ∧ record.ID = .known cluster.ID
        ∧ record.Memory = .known cluster.Memory
        ∧ record.VCPU = .known cluster.VCPU
        ∧ record.Region = .known region
        ∧ record.HighAvailability = .known cluster.HighAvailability
        ∧ record.HighPerformanceDisk = .known cluster.HighPerformanceDisk
        ∧ record.Status = .known cluster.Status := by
  obtain ⟨h1, _⟩ := Create_inService cr req resp create fetches created cluster region rest
    hplan hcreate hpoll hregions
  refine ⟨_, congrArg ResourceResponse.State h1, ?_, ?_, rfl, rfl, rfl, rfl, rfl, rfl, rfl⟩
  · exact congrArg ResourceResponse.State
      (Read_ok cr { State := { model := _, diags := [] } } { Diagnostics := [], State := _ }
        fetch cluster region rest (by rfl) (hfetch _) hregions).1
  · exact (Read_ok cr { State := { model := _, diags := [] } } { Diagnostics := [], State := _ }
        fetch cluster region rest (by rfl) (hfetch _) hregions).2

/-- Witness of C11: `Create` polls twice and stores the record of cluster `abc123`;
a `Read` fetching the same cluster stores the same record. -/
theorem C11_create_then_read_witness :
    ∃ record,
      (sampleResource.Create sampleCreateRequest emptyResponse createdAnswer
          [provisioningAnswer, inServiceAnswer ["us-east-1"]]).resp.State = some record
        ∧ (sampleResource.Read { State := { model := record, diags := [] } }
            { Diagnostics := [], State := some record }
            (inServiceAnswer ["us-east-1"])).resp.State = some record
        ∧ record = inServiceRecord "us-east-1" := by
  obtain ⟨record, h1, h2, _, h3⟩ := C11_create_then_read sampleResource sampleCreateRequest
    emptyResponse createdAnswer (inServiceAnswer ["us-east-1"])
    [provisioningAnswer, inServiceAnswer ["us-east-1"]]
    { typesenseCluster.zero with ID := "abc123", Status := "provisioning" }
    (inServiceCluster ["us-east-1"]) "us-east-1" []
    (by decide) (fun _ => by rfl) (by rfl) (by rfl) (fun _ => by rfl)
  refine ⟨record, h1, h2, ?_⟩
  have h : some record = some (inServiceRecord "us-east-1") := h1.symm.trans (by rfl)
  exact Option.some.inj h

/-! ### API keys -/

/-- Claim C12 (API-key issuance): when the transport delivers a response whose
document decodes into the API-keys response struct with the success flag true,
`CreateClusterApiKeys` returns the admin key and the search-only key of the decoded
`api_keys` object unchanged, with both `Id` and `ClusterId` set to the requested
cluster identifier. For the document that holds the flag and an `api_keys` object
with members `id`, `cluster_id`, `admin_key`, `search_only_key`, the two keys returned
are the strings of that object, whatever its `id` and `cluster_id` say. -/
theorem C12_api_keys_issuance (c : typesenseClient) (model : typesenseClusterApiKeys)
    (r : HTTPResponse) (doc : JSON) (response : typesenseClusterApiKeysCreateResponse)
    (hjson : r.Body.json = .ok doc)
    (hdecode : unmarshalApiKeysCreateResponse typesenseClusterApiKeysCreateResponse.zero doc
      = .ok response)
    (hsuccess : response.Success = true) :
    c.CreateClusterApiKeys model (.done (some r) none) =
        .ok { Id := model.ClusterId, ClusterId := model.ClusterId,
              AdminKey := response.ClusterApiKeys.AdminKey,
              SearchOnlyKey := response.ClusterApiKeys.SearchOnlyKey }
      ∧ (∀ (status : Nat) (raw id clusterId adminKey searchOnlyKey : String),
          c.CreateClusterApiKeys model
              (answer status raw (apiKeysDoc id clusterId adminKey searchOnlyKey)) =
            .ok { Id := model.ClusterId, ClusterId := model.ClusterId,
                  AdminKey := adminKey, SearchOnlyKey := searchOnlyKey }) := by
  refine ⟨?_, fun _ _ _ _ _ _ => by rfl⟩
  simp [typesenseClient.CreateClusterApiKeys, hjson, hdecode, hsuccess]

/-- Witness of C12: keys requested for cluster `abc123`; the response names another
cluster and key identifier, and the record returned carries `abc123` twice and the two
secrets of the response. -/
theorem C12_api_keys_issuance_witness :
    sampleResource.client.CreateClusterApiKeys
        { typesenseClusterApiKeys.zero with ClusterId := "abc123" }
        (.done (some apiKeysResponse) none) =
      .ok { Id := "abc123", ClusterId := "abc123", AdminKey := "adm-secret",
            SearchOnlyKey := "srch-secret" } :=
  (C12_api_keys_issuance sampleResource.client
    { typesenseClusterApiKeys.zero with ClusterId := "abc123" } apiKeysResponse
    (apiKeysDoc "k1" "other" "adm-secret" "srch-secret")
    { Success := true,
      ClusterApiKeys := { Id := "k1", ClusterId := "other", AdminKey := "adm-secret",
                          SearchOnlyKey := "srch-secret" } }
    (by rfl) (by rfl) (by rfl)).1

/-! ### Failure paths -/

/-- The loop leaves with the error of the first fetch that returns one, when every
fetch before it was successful and not yet `in_service`. -/
theorem poll_fails (cr : clusterResource) (id : String) (pre : List Exchange)
    (bad : Exchange) (extra : List Exchange) (e : String)
    (hpre : ∀ x ∈ pre, ∃ c', cr.client.GetCluster id x = .ok c' ∧ c'.Status ≠ "in_service")
    (hbad : cr.client.GetCluster id bad = .err e) :
    (cr.poll id (pre ++ bad :: extra)).result = .failed e := by
  induction pre with
  | nil => simp [clusterResource.poll, hbad]
  | cons x pre ih =>
    obtain ⟨c', hx, hne⟩ := hpre x (List.mem_cons_self _ _)
    have ih' := ih (fun y hy => hpre y (List.mem_cons_of_mem _ hy))
    simp [clusterResource.poll, hx, hne, ih']

/-- What `Create` does when the create call returns an error. -/
theorem Create_create_err (cr : clusterResource) (req : CreateRequest)
    (resp : ResourceResponse) (create : Exchange) (fetches : List Exchange) (e : String)
    (hplan : Diagnostics.HasError (Diagnostics.Append resp.Diagnostics req.Plan.diags) = false)
    (hcreate : ∀ m, cr.client.CreateCluster m create = .err e) :
    (cr.Create req resp create fetches).resp =
        { Diagnostics := Diagnostics.AddError
            (Diagnostics.Append resp.Diagnostics req.Plan.diags) "Error creating cluster"
            ("Could not create cluster, unexpected error: " ++ e),
          State := resp.State }
      ∧ (cr.Create req resp create fetches).ending = .returned := by
  unfold clusterResource.Create
  simp only [hplan, hcreate]
  simp

/-- What `Create` does when the create call succeeds and the loop leaves with an
error of a fetch. -/
theorem Create_poll_failed (cr : clusterResource) (req : CreateRequest)
    (resp : ResourceResponse) (create : Exchange) (fetches : List Exchange)
    (created : typesenseCluster) (e : String)
    (hplan : Diagnostics.HasError (Diagnostics.Append resp.Diagnostics req.Plan.diags) = false)
    (hcreate : ∀ m, cr.client.CreateCluster m create = .ok created)
    (hpoll : (cr.poll created.ID fetches).result = .failed e) :
    (cr.Create req resp create fetches).resp =
        { Diagnostics := Diagnostics.AddError
            (Diagnostics.Append resp.Diagnostics req.Plan.diags)
            "Error waiting for cluster state"
            ("Cluster created, but could not reach expected state: " ++ e),
          State := resp.State }
      ∧ (cr.Create req resp create fetches).ending = .returned := by
  unfold clusterResource.Create
  simp only [hplan, hcreate, hpoll]
  simp

/-- What `Read` does when the fetch returns an error. -/
theorem Read_err (cr : clusterResource) (req : ReadRequest) (resp : ResourceResponse)
    (fetch : Exchange) (e : String)
    (hstate : Diagnostics.HasError (Diagnostics.Append resp.Diagnostics req.State.diags) = false)
    (hfetch : cr.client.GetCluster req.State.model.ID.ValueString fetch = .err e) :
    (cr.Read req resp fetch).resp =
        { Diagnostics := Diagnostics.AddError
            (Diagnostics.Append resp.Diagnostics req.State.diags)
            "Error Reading Typesense Cluster"
            ("Could not read Typesense Cluster ID " ++ req.State.model.ID.ValueString
              ++ ": " ++ e),
          State := resp.State }
      ∧ (cr.Read req resp fetch).ending = .returned := by
  unfold clusterResource.Read
  simp only [hstate, hfetch]
  simp

/-- What `Update` does when the patch returns an error. -/
theorem Update_patch_err (cr : clusterResource) (req : UpdateRequest)
    (resp : ResourceResponse) (patch fetch : Exchange) (e : String)
    (hplan : Diagnostics.HasError (Diagnostics.Append resp.Diagnostics req.Plan.diags) = false)
    (hpatch : ∀ m, cr.client.UpdateCluster m patch = .err e) :
    (cr.Update req resp patch fetch).resp =
        { Diagnostics := Diagnostics.AddError
            (Diagnostics.Append resp.Diagnostics req.Plan.diags)
            "Error Updating Typesense Cluster"
            ("Could not update cluster, unexpected error: " ++ e),
          State := resp.State }
      ∧ (cr.Update req resp patch fetch).ending = .returned := by
  unfold clusterResource.Update
  simp only [hplan, hpatch]
  simp

/-- What `Update` does when the patch is accepted and the fetch returns an error. -/
theorem Update_fetch_err (cr : clusterResource) (req : UpdateRequest)
    (resp : ResourceResponse) (patch fetch : Exchange) (e : String)
    (hplan : Diagnostics.HasError (Diagnostics.Append resp.Diagnostics req.Plan.diags) = false)
    (hpatch : ∀ m, cr.client.UpdateCluster m patch = .ok ())
    (hfetch : cr.client.GetCluster req.Plan.model.ID.ValueString fetch = .err e) :
    (cr.Update req resp patch fetch).resp =
        { Diagnostics := Diagnostics.AddError
            (Diagnostics.Append resp.Diagnostics req.Plan.diags)
            "Error Reading Typesense Cluster"
            ("Could not read Typesense Cluster ID " ++ req.Plan.model.ID.ValueString
              ++ ": " ++ e),
          State := resp.State }
      ∧ (cr.Update req resp patch fetch).ending = .returned := by
  unfold clusterResource.Update
  simp only [hplan, hpatch, hfetch]
  simp

/-- Claim C13 (no state write on failure): let the plan or state of each operation be
read without error. When the create call returns an error; when the create call
succeeds and, after fetches that are successful and not yet `in_service`, a fetch of
the polling loop returns an error; when the fetch of `Read` returns an error; when the
patch returns an error; and when the patch is accepted and the fetch after it returns
an error: the operation adds its error diagnostic, leaves the state of the response as
it was handed over, and returns. -/
theorem C13_no_state_write_on_failure (cr : clusterResource) (creq : CreateRequest)
    (rreq : ReadRequest) (ureq : UpdateRequest) (cresp rresp uresp : ResourceResponse)
    (createBad create patchBad patch bad : Exchange) (pre extra : List Exchange)
    (created : typesenseCluster) (eCreate ePatch eFetch : String)
    (hcreq : Diagnostics.HasError (Diagnostics.Append cresp.Diagnostics creq.Plan.diags) = false)
    (hrreq : Diagnostics.HasError (Diagnostics.Append rresp.Diagnostics rreq.State.diags) = false)
    (hureq : Diagnostics.HasError (Diagnostics.Append uresp.Diagnostics ureq.Plan.diags) = false)
    (hcreateBad : ∀ m, cr.client.CreateCluster m createBad = .err eCreate)
    (hcreate : ∀ m, cr.client.CreateCluster m create = .ok created)
    (hpre : ∀ x ∈ pre, ∃ c', cr.client.GetCluster created.ID x = .ok c'
              ∧ c'.Status ≠ "in_service")
    (hpatchBad : ∀ m, cr.client.UpdateCluster m patchBad = .err ePatch)
    (hpatch : ∀ m, cr.client.UpdateCluster m patch = .ok ())
    (hbad : ∀ id, cr.client.GetCluster id bad = .err eFetch) :
    ((cr.Create creq cresp createBad (pre ++ bad :: extra)).resp =
          { Diagnostics := Diagnostics.AddError
              (Diagnostics.Append cresp.Diagnostics creq.Plan.diags) "Error creating cluster"
              ("Could not create cluster, unexpected error: " ++ eCreate),
            State := cresp.State }
        ∧ Diagnostics.HasError
            (cr.Create creq cresp createBad (pre ++ bad :: extra)).resp.Diagnostics = true
        ∧ (cr.Create creq cresp createBad (pre ++ bad :: extra)).ending = .returned)
      ∧ ((cr.Create creq cresp create (pre ++ bad :: extra)).resp =
          { Diagnostics := Diagnostics.AddError
              (Diagnostics.Append cresp.Diagnostics creq.Plan.diags)
              "Error waiting for cluster state"
              ("Cluster created, but could not reach expected state: " ++ eFetch),
            State := cresp.State }
        ∧ Diagnostics.HasError
            (cr.Create creq cresp create (pre ++ bad :: extra)).resp.Diagnostics = true
        ∧ (cr.Create creq cresp create (pre ++ bad :: extra)).ending = .returned)
      ∧ ((cr.Read rreq rresp bad).resp =
          { Diagnostics := Diagnostics.AddError
              (Diagnostics.Append rresp.Diagnostics rreq.State.diags)
              "Error Reading Typesense Cluster"
              ("Could not read Typesense Cluster ID " ++ rreq.State.model.ID.ValueString
                ++ ": " ++ eFetch),
            State := rresp.State }
        ∧ Diagnostics.HasError (cr.Read rreq rresp bad).resp.Diagnostics = true
        ∧ (cr.Read rreq rresp bad).ending = .returned)
      ∧ ((cr.Update ureq uresp patchBad bad).resp =
          { Diagnostics := Diagnostics.AddError
              (Diagnostics.Append uresp.Diagnostics ureq.Plan.diags)
              "Error Updating Typesense Cluster"
              ("Could not update cluster, unexpected error: " ++ ePatch),
            State := uresp.State }
        ∧ Diagnostics.HasError (cr.Update ureq uresp patchBad bad).resp.Diagnostics = true
        ∧ (cr.Update ureq uresp patchBad bad).ending = .returned)
      ∧ ((cr.Update ureq uresp patch bad).resp =
          { Diagnostics := Diagnostics.AddError
              (Diagnostics.Append uresp.Diagnostics ureq.Plan.diags)
              "Error Reading Typesense Cluster"
              ("Could not read Typesense Cluster ID " ++ ureq.Plan.model.ID.ValueString
                ++ ": " ++ eFetch),
            State := uresp.State }
        ∧ Diagnostics.HasError (cr.Update ureq uresp patch bad).resp.Diagnostics = true
        ∧ (cr.Update ureq uresp patch bad).ending = .returned) := by
  obtain ⟨a1, a2⟩ := Create_create_err cr creq cresp createBad (pre ++ bad :: extra) eCreate
    hcreq hcreateBad
  obtain ⟨b1, b2⟩ := Create_poll_failed cr creq cresp create (pre ++ bad :: extra) created
    eFetch hcreq hcreate (poll_fails cr created.ID pre bad extra eFetch hpre (hbad _))
  obtain ⟨c1, c2⟩ := Read_err cr rreq rresp bad eFetch hrreq (hbad _)
  obtain ⟨d1, d2⟩ := Update_patch_err cr ureq uresp patchBad bad ePatch hureq hpatchBad
  obtain ⟨e1, e2⟩ := Update_fetch_err cr ureq uresp patch bad eFetch hureq hpatch (hbad _)
  refine ⟨⟨a1, ?_, a2⟩, ⟨b1, ?_, b2⟩, ⟨c1, ?_, c2⟩, ⟨d1, ?_, d2⟩, ⟨e1, ?_, e2⟩⟩
  · rw [a1]; exact HasError_AddError _ _ _
  · rw [b1]; exact HasError_AddError _ _ _
  · rw [c1]; exact HasError_AddError _ _ _
  · rw [d1]; exact HasError_AddError _ _ _
  · rw [e1]; exact HasError_AddError _ _ _

/-- Witness of C13: a rejected create call, an empty body for the second fetch of the
loop, for the fetch of `Read`, and for the fetch after an accepted patch, and a
rejected patch. `Create` leaves no state; `Read` and `Update` leave the tracked record
as it was. -/
theorem C13_no_state_write_on_failure_witness :
    (sampleResource.Create sampleCreateRequest emptyResponse rejectedAnswer
        [provisioningAnswer, emptyBodyAnswer]).resp.State = none
      ∧ (sampleResource.Create sampleCreateRequest emptyResponse createdAnswer
        [provisioningAnswer, emptyBodyAnswer]).resp =
          { Diagnostics :=
              [{ severity := .error, summary := "Error waiting for cluster state",
                 detail := "Cluster created, but could not reach expected state: "
                   ++ "unexpected end of JSON input" }],
            State := none }
      ∧ (sampleResource.Read sampleReadRequest trackedResponse emptyBodyAnswer).resp.State
          = some (inServiceRecord "us-east-1")
      ∧ (sampleResource.Update sampleUpdateRequest trackedResponse rejectedAnswer
          emptyBodyAnswer).resp.State = some (inServiceRecord "us-east-1")
      ∧ (sampleResource.Update sampleUpdateRequest trackedResponse acceptedAnswer
          emptyBodyAnswer).resp.State = some (inServiceRecord "us-east-1") := by
  have h := C13_no_state_write_on_failure sampleResource sampleCreateRequest sampleReadRequest
    sampleUpdateRequest emptyResponse trackedResponse trackedResponse
    rejectedAnswer createdAnswer rejectedAnswer acceptedAnswer emptyBodyAnswer
    [provisioningAnswer] []
    { typesenseCluster.zero with ID := "abc123", Status := "provisioning" }
    "\x7b\"success\":false,\"message\":\"Validation failed\"\x7d"
    "\x7b\"success\":false,\"message\":\"Validation failed\"\x7d"
    "unexpected end of JSON input"
    (by decide) (by decide) (by decide) (fun _ => by rfl) (fun _ => by rfl)
    (by
      intro x hx
      refine ⟨{ typesenseCluster.zero with
                ID := "abc123", Status := "provisioning", Regions := ["us-east-1"] }, ?_, ?_⟩
      · simp only [List.mem_singleton] at hx
        subst hx
        rfl
      · decide)
    (fun _ => by rfl) (fun _ => by rfl) (fun _ => by rfl)
  exact ⟨congrArg ResourceResponse.State h.1.1, h.2.1.1,
    congrArg ResourceResponse.State h.2.2.1.1,
    congrArg ResourceResponse.State h.2.2.2.1.1,
    congrArg ResourceResponse.State h.2.2.2.2.1⟩

/-! ### The requests of `Create` -/

/-- Every request of the polling loop is the GET of the cluster being created. -/
theorem poll_sent_get (cr : clusterResource) (id : String) (xs : List Exchange) :
    ∀ r ∈ (cr.poll id xs).sent, r = cr.client.GetClusterRequest id := by
  induction xs with
  | nil => simp [clusterResource.poll]
  | cons x xs ih =>
    have hx : ∀ r ∈ x.sent (cr.client.GetClusterRequest id),
        r = cr.client.GetClusterRequest id := by
      cases x <;> simp [Exchange.sent]
    unfold clusterResource.poll
    dsimp only
    generalize cr.client.GetCluster id x = o
    rcases o with c | _ | _ <;> dsimp only
    · split
      · intro r hr
        rcases List.mem_append.mp hr with h | h
        · exact hx r h
        · exact ih r h
      · exact hx
    · exact hx
    · exact hx

/-- The requests of `Create`: none, or the POST built from the plan followed by
requests of the polling loop. -/
theorem Create_sent (cr : clusterResource) (req : CreateRequest) (resp : ResourceResponse)
    (create : Exchange) (fetches : List Exchange) :
    ∃ gets,
      ((cr.Create req resp create fetches).sent = []
        ∨ (cr.Create req resp create fetches).sent =
            cr.client.CreateClusterRequest
              { typesenseCluster.zero with
                Memory := req.Plan.model.Memory.ValueString,
                VCPU := req.Plan.model.VCPU.ValueString,
                Regions := [req.Plan.model.Region.ValueString],
                HighAvailability := req.Plan.model.HighAvailability.ValueString,
                SearchDeliveryNetwork := req.Plan.model.SearchDeliveryNetwork.ValueString,
                HighPerformanceDisk := req.Plan.model.HighPerformanceDisk.ValueString,
                Name := req.Plan.model.Name.ValueString,
                AutoUpgradeCapacity := req.Plan.model.AutoUpgradeCapacity.ValueBool } :: gets)
      ∧ (∀ g ∈ gets, ∃ id, g = cr.client.GetClusterRequest id)
      ∧ (Diagnostics.HasError (Diagnostics.Append resp.Diagnostics req.Plan.diags) = false →
          (∃ r e, create = .done r e) → (cr.Create req resp create fetches).sent ≠ []) := by
  unfold clusterResource.Create
  dsimp only
  split
  · exact ⟨[], Or.inl rfl, by simp, by simp_all⟩
  · cases create with
    | newRequestFailed e =>
      refine ⟨[], Or.inl ?_, by simp, by simp⟩
      simp [typesenseClient.CreateCluster, Exchange.sent]
    | done r1 e1 =>
      simp only [Exchange.sent]
      generalize cr.client.CreateCluster _ (Exchange.done r1 e1) = o
      rcases o with created | _ | _ <;> dsimp only
      · refine ⟨(cr.poll created.ID fetches).sent, Or.inr ?_,
          fun g hg => ⟨_, poll_sent_get cr created.ID fetches g hg⟩, ?_⟩
        · split
          · rfl
          · rfl
          · rfl
          · split <;> rfl
        · intro _ _
          split
          · simp
          · simp
          · simp
          · split <;> simp
      · exact ⟨[], Or.inr rfl, by simp, by simp⟩
      · exact ⟨[], Or.inr rfl, by simp, by simp⟩

/-- Claim C14 (create request shaping): for every plan, the requests `Create` sends are
none, or begin with the POST to the cluster endpoint whose body holds the plan's
memory, vCPU, high availability, high-performance disk, name and auto-upgrade values,
`regions` as the one-element list of the plan's region, and `search_delivery_network`
as the constant `off`; every request after it is a body-less GET. The POST is sent
whenever the plan is read without error and the request can be built. -/
theorem C14_create_request_shaping (cr : clusterResource) (req : CreateRequest)
    (resp : ResourceResponse) (create : Exchange) (fetches : List Exchange) :
    ∃ post gets,
      post =
          { Method := "POST", URL := clusterEndpoint,
            Header := [("Content-Type", "application/json"), ("Accept", "application/json"),
                       ("X-TYPESENSE-CLOUD-MANAGEMENT-API-KEY", cr.client.key)],
            Body := some
              [("memory", JSON.str req.Plan.model.Memory.ValueString),
               ("vcpu", JSON.str req.Plan.model.VCPU.ValueString),
               ("regions", JSON.arr [JSON.str req.Plan.model.Region.ValueString]),
               ("high_availability", JSON.str req.Plan.model.HighAvailability.ValueString),
               ("search_delivery_network", JSON.str "off"),
               ("high_performance_disk",
                 JSON.str req.Plan.model.HighPerformanceDisk.ValueString),
               ("name", JSON.str req.Plan.model.Name.ValueString),
               ("auto_upgrade_capacity",
                 JSON.bool req.Plan.model.AutoUpgradeCapacity.ValueBool)] }
        ∧ ((cr.Create req resp create fetches).sent = []
            ∨ (cr.Create req resp create fetches).sent = post :: gets)
        ∧ (∀ g ∈ gets, g.Method = "GET" ∧ g.Body = none)
        ∧ (Diagnostics.HasError (Diagnostics.Append resp.Diagnostics req.Plan.diags) = false →
            (∃ r e, create = .done r e) →
            (cr.Create req resp create fetches).sent = post :: gets) := by
  obtain ⟨gets, hsent, hgets, hne⟩ := Create_sent cr req resp create fetches
  refine ⟨_, gets, rfl, hsent, ?_, ?_⟩
  · intro g hg
    obtain ⟨id, hid⟩ := hgets g hg
    subst hid
    exact ⟨rfl, rfl⟩
  · intro hplan hdone
    rcases hsent with h | h
    · exact absurd h (hne hplan hdone)
    · exact h

/-! ### Indexing the region list -/

/-- What `Create` does when its loop ends with a cluster without regions. -/
theorem Create_inService_empty (cr : clusterResource) (req : CreateRequest)
    (resp : ResourceResponse) (create : Exchange) (fetches : List Exchange)
    (created cluster : typesenseCluster)
    (hplan : Diagnostics.HasError (Diagnostics.Append resp.Diagnostics req.Plan.diags) = false)
    (hcreate : ∀ m, cr.client.CreateCluster m create = .ok created)
    (hpoll : (cr.poll created.ID fetches).result = .inService cluster)
    (hregions : cluster.Regions = []) :
    (cr.Create req resp create fetches).resp =
        { Diagnostics := Diagnostics.Append resp.Diagnostics req.Plan.diags,
          State := resp.State }
      ∧ (cr.Create req resp create fetches).ending = .panicked indexOutOfRange := by
  unfold clusterResource.Create
  simp only [hplan, hcreate, hpoll, hregions]
  simp

/-- What `Read` does when the fetch returns a cluster without regions. -/
theorem Read_empty (cr : clusterResource) (req : ReadRequest) (resp : ResourceResponse)
    (fetch : Exchange) (cluster : typesenseCluster)
    (hstate : Diagnostics.HasError (Diagnostics.Append resp.Diagnostics req.State.diags) = false)
    (hfetch : cr.client.GetCluster req.State.model.ID.ValueString fetch = .ok cluster)
    (hregions : cluster.Regions = []) :
    (cr.Read req resp fetch).resp =
        { Diagnostics := Diagnostics.Append resp.Diagnostics req.State.diags,
          State := resp.State }
      ∧ (cr.Read req resp fetch).ending = .panicked indexOutOfRange := by
  unfold clusterResource.Read
  simp only [hstate, hfetch, hregions]
  simp

/-- What `Update` does when the patch is accepted and the fetch returns a cluster
without regions. -/
theorem Update_empty (cr : clusterResource) (req : UpdateRequest) (resp : ResourceResponse)
    (patch fetch : Exchange) (cluster : typesenseCluster)
    (hplan : Diagnostics.HasError (Diagnostics.Append resp.Diagnostics req.Plan.diags) = false)
    (hpatch : ∀ m, cr.client.UpdateCluster m patch = .ok ())
    (hfetch : cr.client.GetCluster req.Plan.model.ID.ValueString fetch = .ok cluster)
    (hregions : cluster.Regions = []) :
    (cr.Update req resp patch fetch).resp =
        { Diagnostics := Diagnostics.Append resp.Diagnostics req.Plan.diags,
          State := resp.State }
      ∧ (cr.Update req resp patch fetch).ending = .panicked indexOutOfRange := by
  unfold clusterResource.Update
  simp only [hplan, hpatch, hfetch, hregions]
  simp

/-- Claim C15 (region indexing is guarded only by the data): let the plan or state of
each operation be read without error, let the loop of `Create` end with the cluster
`polled`, and let the fetch of `Read` and of `Update` (after an accepted patch) return
the cluster `fetched`. When the region list is `region :: rest` the operation returns
and stores a record with that `region`. When the region list is empty the operation
panics with index out of range: the state is left as it was and the diagnostics are
those from reading the plan or state, without an error. The body that is the empty
JSON object decodes, without error, to the zero-valued cluster, whose region list is
empty. -/
theorem C15_region_indexing (cr : clusterResource) (creq : CreateRequest)
    (rreq : ReadRequest) (ureq : UpdateRequest) (cresp rresp uresp : ResourceResponse)
    (create patch fetch : Exchange) (fetches : List Exchange)
    (created polled fetched : typesenseCluster)
    (hcreq : Diagnostics.HasError (Diagnostics.Append cresp.Diagnostics creq.Plan.diags) = false)
    (hrreq : Diagnostics.HasError (Diagnostics.Append rresp.Diagnostics rreq.State.diags) = false)
    (hureq : Diagnostics.HasError (Diagnostics.Append uresp.Diagnostics ureq.Plan.diags) = false)
    (hcreate : ∀ m, cr.client.CreateCluster m create = .ok created)
    (hpoll : (cr.poll created.ID fetches).result = .inService polled)
    (hpatch : ∀ m, cr.client.UpdateCluster m patch = .ok ())
    (hfetch : ∀ id, cr.client.GetCluster id fetch = .ok fetched) :
    (∀ region rest, polled.Regions = region :: rest →
        (cr.Create creq cresp create fetches).ending = .returned
          ∧ (cr.Create creq cresp create fetches).resp.State.map (fun st => st.Region)
              = some (.known region))
      ∧ (polled.Regions = [] →
        (cr.Create creq cresp create fetches).ending = .panicked indexOutOfRange
          ∧ (cr.Create creq cresp create fetches).resp =
              { Diagnostics := Diagnostics.Append cresp.Diagnostics creq.Plan.diags,
                State := cresp.State })
      ∧ (∀ region rest, fetched.Regions = region :: rest →
        (cr.Read rreq rresp fetch).ending = .returned
          ∧ (cr.Read rreq rresp fetch).resp.State.map (fun st => st.Region)
              = some (.known region)
          ∧ (cr.Update ureq uresp patch fetch).ending = .returned
          ∧ (cr.Update ureq uresp patch fetch).resp.State.map (fun st => st.Region)
              = some (.known region))
      ∧ (fetched.Regions = [] →
        (cr.Read rreq rresp fetch).ending = .panicked indexOutOfRange
          ∧ (cr.Read rreq rresp fetch).resp =
              { Diagnostics := Diagnostics.Append rresp.Diagnostics rreq.State.diags,
                State := rresp.State }
          ∧ (cr.Update ureq uresp patch fetch).ending = .panicked indexOutOfRange
          ∧ (cr.Update ureq uresp patch fetch).resp =
              { Diagnostics := Diagnostics.Append uresp.Diagnostics ureq.Plan.diags,
                State := uresp.State })
      ∧ (∀ (id : String) (status : Nat),
          cr.client.GetCluster id (answer status "\x7b\x7d" (.obj [])) = .ok typesenseCluster.zero)
      ∧ typesenseCluster.zero.Regions = [] := by
  refine ⟨?_, ?_, ?_, ?_, fun _ _ => rfl, rfl⟩
  · intro region rest hregions
    obtain ⟨h1, _, h3, _⟩ := Create_inService cr creq cresp create fetches created polled
      region rest hcreq hcreate hpoll hregions
    exact ⟨h3, by rw [h1]; rfl⟩
  · intro hregions
    obtain ⟨h1, h2⟩ := Create_inService_empty cr creq cresp create fetches created polled
      hcreq hcreate hpoll hregions
    exact ⟨h2, h1⟩
  · intro region rest hregions
    obtain ⟨h1, h2⟩ := Read_ok cr rreq rresp fetch fetched region rest hrreq (hfetch _) hregions
    obtain ⟨h3, h4⟩ := Update_ok cr ureq uresp patch fetch fetched region rest hureq hpatch
      (hfetch _) hregions
    exact ⟨h2, by rw [h1]; rfl, h4, by rw [h3]; rfl⟩
  · intro hregions
    obtain ⟨h1, h2⟩ := Read_empty cr rreq rresp fetch fetched hrreq (hfetch _) hregions
    obtain ⟨h3, h4⟩ := Update_empty cr ureq uresp patch fetch fetched hureq hpatch (hfetch _)
      hregions
    exact ⟨h2, h1, h4, h3⟩

/-- Witness of C15: `Create` whose loop ends with an `in_service` cluster without
regions, and `Read` and `Update` whose fetch is answered with the empty JSON object,
panic with index out of range and leave the response as it was handed over. -/
theorem C15_region_indexing_witness :
    (sampleResource.Create sampleCreateRequest emptyResponse createdAnswer
        [inServiceNoRegionsAnswer]).ending = .panicked indexOutOfRange
      ∧ (sampleResource.Create sampleCreateRequest emptyResponse createdAnswer
        [inServiceNoRegionsAnswer]).resp = emptyResponse
      ∧ (sampleResource.Read sampleReadRequest trackedResponse emptyObjectAnswer).ending
        = .panicked indexOutOfRange
      ∧ (sampleResource.Read sampleReadRequest trackedResponse emptyObjectAnswer).resp
        = trackedResponse
      ∧ (sampleResource.Update sampleUpdateRequest trackedResponse acceptedAnswer
          emptyObjectAnswer).ending = .panicked indexOutOfRange
      ∧ (sampleResource.Update sampleUpdateRequest trackedResponse acceptedAnswer
          emptyObjectAnswer).resp = trackedResponse := by
  have h := C15_region_indexing sampleResource sampleCreateRequest sampleReadRequest
    sampleUpdateRequest emptyResponse trackedResponse trackedResponse createdAnswer
    acceptedAnswer emptyObjectAnswer [inServiceNoRegionsAnswer]
    { typesenseCluster.zero with ID := "abc123", Status := "provisioning" }
    { typesenseCluster.zero with ID := "abc123", Status := "in_service" }
    typesenseCluster.zero
    (by decide) (by decide) (by decide) (fun _ => by rfl) (by rfl) (fun _ => by rfl)
    (fun _ => by rfl)
  obtain ⟨c1, c2⟩ := h.2.1 rfl
  obtain ⟨r1, r2, u1, u2⟩ := h.2.2.2.1 rfl
  exact ⟨c1, c2, r1, r2, u1, u2⟩

end Typesense
